import Mathlib

/-!
# ScrimHandlerWeb: a shallow embedding of the front-end logic

The repository is the React front end of a scrim marketplace.  This file
embeds the pure logic of its components (the filter/sort pipeline and the
grouping of `ScrimBoard`, the routes of `App`, the guards that decide which
actions a page offers, the form handlers of `CreateScrim`, `TeamManagement`,
`Profile` and `AdminDashboard`) as Lean functions over explicit state, and
states the properties of the specification over them.

Conventions of the embedding

* A JavaScript string is a `String`; `null`/`undefined` is `none`.
* An instant (the time value of a `Date`) is an `Int`, milliseconds since the
  epoch; an `Invalid Date` (time value `NaN`) is `none`.
* The local time zone is a fixed offset `tz`, milliseconds east of UTC
  (daylight-saving transitions are not modelled).
* `Array.prototype.sort` is the stable sort the language standard requires
  (ECMAScript 2019 and later); for a consistent comparator its result is
  unique, and it is computed here by a stable insertion sort.
* A request sent with `axios` is returned as a value; the answer of the
  server is a parameter.
-/

namespace ScrimHandler

/-! ## Data model (the fields the components read) -/

/-- The logged-in account, as the components receive it in the `user` prop. -/
structure User where
  user_id : String
  tier : String
  team_id : Option String
  is_admin : Bool
  deriving DecidableEq, Repr

/-- One element of the array returned by `GET /api/scrims`.
`scheduled_time` is the time value of `new Date(scrim.scheduled_time)`:
`none` when the text does not parse (an `Invalid Date`). -/
structure Scrim where
  scrim_id : String
  team_id : String
  tier : String
  status : String
  num_games : Int
  max_rounds : Int
  scheduled_time : Option Int
  deriving DecidableEq, Repr

/-- The `filters` state of `ScrimBoard`. -/
structure Filters where
  day : String
  time : String
  format : String
  map : String
  tier : String
  deriving DecidableEq, Repr

/-- The initial value of `filters`, also what "Clear Filters" sets. -/
def allFilters : Filters :=
  { day := "all", time := "all", format := "all", map := "all", tier := "all" }

/-- JavaScript truthiness of a value that is `null` or a string: `null` and
the empty string are falsy. -/
def truthy : Option String → Bool
  | none => false
  | some s => s != ""

/-! ## Dates -/

/-- Milliseconds in a day. -/
def msPerDay : Int := 86400000

/-- Milliseconds in an hour. -/
def msPerHour : Int := 3600000

/-- The local calendar day (days since the epoch, local time) of an instant. -/
def localDay (tz : Int) (t : Int) : Int := (t + tz) / msPerDay

/-- The text of `Date.prototype.toDateString` determines and is determined by
the local calendar day (weekday, month, day, year); an `Invalid Date` prints
as the text "Invalid Date", here `none`. -/
def toDateString (tz : Int) : Option Int → Option Int
  | none => none
  | some t => some (localDay tz t)

/-- The date `tomorrow` of `applyFilters`: a copy of `today` moved by
`setDate(getDate() + 1)`, the same local time on the next calendar day. -/
def tomorrowOf (today : Int) : Int := today + msPerDay

/-- The user is in a team: the test `user.team_id` the components make
before every team action. -/
def hasTeam (user : User) : Bool := truthy user.team_id

/-! ## ScrimBoard.applyFilters -/

/-- The callback of the day filter (`filters.day` is not 'all'). -/
def dayFilter (tz now : Int) (filters : Filters) (scrim : Scrim) : Bool :=
  let today := now
  let tomorrow := tomorrowOf today
  let scrimDate := scrim.scheduled_time
  if filters.day = "today" then
    toDateString tz scrimDate == toDateString tz (some today)
  else if filters.day = "tomorrow" then
    toDateString tz scrimDate == toDateString tz (some tomorrow)
  else true

/-- The callback of the format filter (`filters.format` is not 'all'). -/
def formatFilter (filters : Filters) (scrim : Scrim) : Bool :=
  if filters.format = "1game" then scrim.num_games == 1
  else if filters.format = "2games" then scrim.num_games == 2
  else if filters.format = "mr13" then scrim.max_rounds == 13
  else if filters.format = "mr24" then scrim.max_rounds == 24
  else true

/-- The callback of the tier filter (`filters.tier` is not 'all'). -/
def tierFilter (filters : Filters) (scrim : Scrim) : Bool :=
  scrim.tier == filters.tier

/-- The comparator `(a, b) => new Date(a.scheduled_time) - new Date(b.scheduled_time)`;
`none` is `NaN`, the difference when either date is invalid. -/
def compareScheduled (a b : Scrim) : Option Int :=
  match a.scheduled_time, b.scheduled_time with
  | some x, some y => some (x - y)
  | _, _ => none

/-- The abstract operation SortCompare of the standard on two defined
elements: a comparator result of `NaN` counts as `+0`. -/
def sortCompare (a b : Scrim) : Int :=
  match compareScheduled a b with
  | none => 0
  | some v => v

/-- The element `a` may stay in front of `b`: the comparator does not ask for
`b` to go first. -/
def notAfter (a b : Scrim) : Prop := sortCompare a b ≤ 0

instance : DecidableRel notAfter := fun a b => Int.decLe (sortCompare a b) 0

/-- The call `filtered.sort(comparator)`: a stable sort. -/
def sortByScheduled (l : List Scrim) : List Scrim := l.insertionSort notAfter

/-- The function `applyFilters` of `ScrimBoard`: the value it passes to
`setFilteredScrims`, from the `scrims` and `filters` state, the zone and the
current instant (`new Date()`). -/
def applyFilters (tz now : Int) (filters : Filters) (scrims : List Scrim) : List Scrim :=
  let filtered := scrims
  let filtered := if filters.day ≠ "all" then filtered.filter (dayFilter tz now filters) else filtered
  let filtered := if filters.format ≠ "all" then filtered.filter (formatFilter filters) else filtered
  let filtered := if filters.tier ≠ "all" then filtered.filter (tierFilter filters) else filtered
  sortByScheduled filtered

/-- The conjunction of the three filter steps of `applyFilters`: a step whose
filter value is 'all' is skipped, the others apply their callback. -/
def passesFilters (tz now : Int) (filters : Filters) (scrim : Scrim) : Bool :=
  (filters.day == "all" || dayFilter tz now filters scrim) &&
  (filters.format == "all" || formatFilter filters scrim) &&
  (filters.tier == "all" || tierFilter filters scrim)

/-! ## ScrimBoard: the scrim card and the Apply action -/

/-- The body of `POST /api/scrims/<id>/apply`, constant in `handleApplyToScrim`. -/
structure ApplyBody where
  selected_maps : List String
  preferred_rounds : Int
  preferred_games : Int
  message : String
  deriving DecidableEq, Repr

/-- What `handleApplyToScrim` does before the server answers: it alerts that a
team is needed, or posts the application for the scrim. -/
inductive ApplyOutcome where
  | alertNoTeam
  | posted (scrimId : String) (body : ApplyBody)
  deriving DecidableEq, Repr

/-- The function `handleApplyToScrim` of `ScrimBoard`, up to the request. -/
def handleApplyToScrim (user : User) (scrimId : String) : ApplyOutcome :=
  if !truthy user.team_id then .alertNoTeam
  else .posted scrimId
    { selected_maps := [], preferred_rounds := 13, preferred_games := 1,
      message := "Looking forward to a good scrim!" }

/-- The guard of the Apply button: `user.team_id && scrim.team_id !== user.team_id`. -/
def applyOffered (user : User) (scrim : Scrim) : Bool :=
  truthy user.team_id && (some scrim.team_id != user.team_id)

/-- The part of a rendered scrim card the claims are about: the scrim it
shows, the status label it prints and whether it carries an Apply button. -/
structure ScrimCard where
  scrim : Scrim
  statusLabel : String
  applyButton : Bool
  deriving DecidableEq, Repr

/-- The card `ScrimBoard` renders for one scrim; the status label is the
constant text of the source. -/
def renderCard (user : User) (scrim : Scrim) : ScrimCard :=
  { scrim := scrim, statusLabel := "OPEN", applyButton := applyOffered user scrim }

/-- A click on the Apply button of a card: possible only when the button is
rendered, and then it runs `handleApplyToScrim(scrim.scrim_id)`. -/
def clickApply (user : User) (scrim : Scrim) : Option ApplyOutcome :=
  if (renderCard user scrim).applyButton then some (handleApplyToScrim user scrim.scrim_id)
  else none

/-! ## Tier order of the specification -/

/-- The order `public < tier_3 < tier_2 < tier_1` of the tier names. -/
def tierRank (tier : String) : Option Nat :=
  if tier = "public" then some 0
  else if tier = "tier_3" then some 1
  else if tier = "tier_2" then some 2
  else if tier = "tier_1" then some 3
  else none

/-- The visibility rule of the specification: an account at tier `account`
may see a scrim of tier `scrimTier` when the scrim is public, or the account
is at that exact tier or at a higher-privilege one. -/
def mayView (account scrimTier : String) : Bool :=
  scrimTier == "public" ||
  match tierRank account, tierRank scrimTier with
  | some ra, some rs => decide (rs ≤ ra)
  | _, _ => false

/-- The filter contract of the specification, in its words: the scrim is
scheduled on the selected local calendar day, matches the selected format and
has the selected tier; a filter set to 'all' selects everything.  A format is
matched as the label of its option reads: "1 Game", "2+ Games" (two games or
more), "MR13", "MR24". -/
def satisfiesFilters (tz now : Int) (filters : Filters) (scrim : Scrim) : Bool :=
  (filters.day == "all" ||
    (filters.day == "today" &&
      (scrim.scheduled_time.map (localDay tz) == some (localDay tz now))) ||
    (filters.day == "tomorrow" &&
      (scrim.scheduled_time.map (localDay tz) == some (localDay tz now + 1)))) &&
  (filters.format == "all" ||
    (filters.format == "1game" && scrim.num_games == 1) ||
    (filters.format == "2games" && decide (2 ≤ scrim.num_games)) ||
    (filters.format == "mr13" && scrim.max_rounds == 13) ||
    (filters.format == "mr24" && scrim.max_rounds == 24)) &&
  (filters.tier == "all" || scrim.tier == filters.tier)

/-- The order on scrims with valid dates: the first is scheduled no later
than the second. -/
def scheduledLe (a b : Scrim) : Prop :=
  match a.scheduled_time, b.scheduled_time with
  | some x, some y => x ≤ y
  | _, _ => False

/-- Every scrim of the list has a scheduled time that parses. -/
def validTimes (scrims : List Scrim) : Prop :=
  ∀ s ∈ scrims, s.scheduled_time.isSome = true

/-- The scrim is scheduled at the instant `t`. -/
def scheduledAt (t : Int) (s : Scrim) : Bool := s.scheduled_time == some t

/-! ## TeamManagement -/

/-- The team object returned by `GET /api/teams/my-team` (fields read by the
component). -/
structure Team where
  team_id : String
  name : String
  owner_id : String
  members : List String
  max_members : Int
  tier : String
  deriving DecidableEq, Repr

/-- The `createForm` state of `TeamManagement`. -/
structure CreateTeamForm where
  name : String
  description : String
  max_members : Int
  deriving DecidableEq, Repr

/-- The state of the `TeamManagement` component. -/
structure TeamState where
  team : Option Team
  loading : Bool
  showCreateForm : Bool
  createLoading : Bool
  error : String
  createForm : CreateTeamForm
  deriving DecidableEq, Repr

/-- The initial values of the `useState` calls of `TeamManagement`. -/
def initialTeamState : TeamState :=
  { team := none, loading := true, showCreateForm := false, createLoading := false,
    error := "", createForm := { name := "", description := "", max_members := 5 } }

/-- The effect `fetchTeamData`: the team is fetched only when `user.team_id`
is truthy; `myTeam` is the answer of the server (`none` when the request
fails). -/
def fetchTeamData (user : User) (myTeam : Option Team) (st : TeamState) : TeamState :=
  let st :=
    if truthy user.team_id then
      match myTeam with
      | some t => { st with team := some t }
      | none => { st with error := "Failed to load team data" }
    else st
  { st with loading := false }

/-- The constant `canCreateTeam`: `!['tier_1', 'tier_2'].includes(user.tier)`. -/
def canCreateTeam (user : User) : Bool :=
  !(["tier_1", "tier_2"].contains user.tier)

/-- What a render of `TeamManagement` gives below its header: the spinner, one
of the three contents of the branch without a team, or an error thrown while
the elements are built, in which case nothing of the page is shown. -/
inductive TeamView where
  | loading
  | restricted
  | createPrompt
  | createForm
  | renderError
  deriving DecidableEq, Repr

/-- The guard written on the Settings button of the team details:
`team.owner_id === user.user_id`. -/
def settingsGuard (user : User) (team : Team) : Bool :=
  team.owner_id == user.user_id

/-- The guard written on the Invite Member button of the team details:
`team.owner_id === user.user_id && team.members.length < team.max_members`. -/
def inviteGuard (user : User) (team : Team) : Bool :=
  team.owner_id == user.user_id && decide ((team.members.length : Int) < team.max_members)

/-- The render function of `TeamManagement`.  The branch for a loaded team
builds the element `<Calendar>`, a name the file neither imports nor defines:
evaluating the branch throws a ReferenceError, so the team details and their
guarded buttons are never shown. -/
def renderTeamManagement (user : User) (st : TeamState) : TeamView :=
  if st.loading then .loading
  else
    match st.team with
    | none =>
      if !canCreateTeam user then .restricted
      else if !st.showCreateForm then .createPrompt
      else .createForm
    | some _ => .renderError

/-- The handlers a rendered view of `TeamManagement` attaches to its controls. -/
inductive TeamAction where
  | openCreateForm
  | cancelCreateForm
  | editCreateForm (form : CreateTeamForm)
  | submitCreateForm
  deriving DecidableEq, Repr

/-- The action is attached to a control of the view: the "Create Team" button
of the prompt, and "Cancel", the inputs and the submit of the form. -/
def TeamAction.offeredIn : TeamAction → TeamView → Bool
  | .openCreateForm, .createPrompt => true
  | .cancelCreateForm, .createForm => true
  | .editCreateForm _, .createForm => true
  | .submitCreateForm, .createForm => true
  | _, _ => false

/-- The text `err.response?.data?.detail || fallback` of the catch blocks:
`detail` is the detail of the server, `none` when the error carries none. -/
def errorText (detail : Option String) (fallback : String) : String :=
  match detail with
  | some d => if d != "" then d else fallback
  | none => fallback

/-- A request the components send. -/
inductive Request where
  | postCreateTeam (form : CreateTeamForm)
  | getProfile
  | getMyTeam
  deriving DecidableEq, Repr

/-- The function `handleCreateTeam`: the new component state, the new user
and the requests sent, from the answers of the server to the create request
and to the two fetches that follow it (`Except.error` carries the detail of a
failed request). -/
def handleCreateTeam (user : User) (st : TeamState)
    (create : Except (Option String) Unit) (profile : Except (Option String) User)
    (myTeam : Except (Option String) Team) : TeamState × User × List Request :=
  let st := { st with createLoading := true, error := "" }
  let post := Request.postCreateTeam st.createForm
  match create with
  | .error d =>
    ({ st with error := errorText d "Failed to create team", createLoading := false }, user, [post])
  | .ok _ =>
    match profile with
    | .error d =>
      ({ st with error := errorText d "Failed to create team", createLoading := false }, user,
        [post, .getProfile])
    | .ok newUser =>
      match myTeam with
      | .error d =>
        ({ st with error := errorText d "Failed to create team", createLoading := false }, newUser,
          [post, .getProfile, .getMyTeam])
      | .ok t =>
        ({ st with
            team := some t, showCreateForm := false,
            createForm := { name := "", description := "", max_members := 5 },
            createLoading := false }, newUser, [post, .getProfile, .getMyTeam])

/-- One step of `TeamManagement` under an action of the user; the submit runs
`handleCreateTeam` against the given answers of the server. -/
def teamStep (user : User) (st : TeamState) (create : Except (Option String) Unit)
    (profile : Except (Option String) User) (myTeam : Except (Option String) Team) :
    TeamAction → TeamState × User × List Request
  | .openCreateForm => ({ st with showCreateForm := true }, user, [])
  | .cancelCreateForm => ({ st with showCreateForm := false }, user, [])
  | .editCreateForm form => ({ st with createForm := form }, user, [])
  | .submitCreateForm => handleCreateTeam user st create profile myTeam

/-! ## CreateScrim -/

/-- The `formData` state of `CreateScrim`.  `scheduled_time` is the text of
the `datetime-local` control, held as the wall-clock time it spells
(milliseconds, as if the text were UTC); `none` is a text that spells no
date, such as the initial empty text. -/
structure FormData where
  title : String
  description : String
  maps : List String
  max_rounds : Int
  num_games : Int
  scheduled_time : Option Int
  max_participants : Int
  deriving DecidableEq, Repr

/-- The state of the `CreateScrim` component; `maps` is the list of available
maps fetched from the server. -/
structure CreateScrimState where
  formData : FormData
  loading : Bool
  error : String
  maps : List String
  deriving DecidableEq, Repr

/-- The initial value of `formData`. -/
def initialFormData : FormData :=
  { title := "", description := "", maps := [], max_rounds := 13, num_games := 1,
    scheduled_time := none, max_participants := 2 }

/-- The initial state of `CreateScrim`. -/
def initialCreateScrimState : CreateScrimState :=
  { formData := initialFormData, loading := false, error := "", maps := [] }

/-- The instant of `new Date(text)` for a date-time text without offset: the
text is read as local time. -/
def parseLocal (tz : Int) (text : Option Int) : Option Int :=
  text.map (fun wall => wall - tz)

/-- The body of `POST /api/scrims/create`: the form data with
`scheduled_time` replaced by the ISO text of its instant, held as the instant. -/
structure CreateScrimBody where
  title : String
  description : String
  maps : List String
  max_rounds : Int
  num_games : Int
  scheduled_time : Int
  max_participants : Int
  deriving DecidableEq, Repr

/-- What one run of `handleSubmit` leaves: the component state, the create
request if one was sent, and the route navigated to if any. -/
structure SubmitResult where
  state : CreateScrimState
  request : Option CreateScrimBody
  navigated : Option String
  deriving DecidableEq, Repr

/-- The function `handleSubmit` of `CreateScrim`; `answer` is the answer of the
server to the create request (`Except.error` carries the detail of a failed
request).  `toISOString` throws on an invalid date while the body is built,
inside the `try`: no request is sent and the catch block sets the fallback
text. -/
def handleSubmit (tz : Int) (st : CreateScrimState) (answer : Except (Option String) Unit) :
    SubmitResult :=
  let st := { st with loading := true, error := "" }
  if st.formData.maps.length = 0 then
    { state := { st with error := "Please select at least one map", loading := false },
      request := none, navigated := none }
  else
    match parseLocal tz st.formData.scheduled_time with
    | none =>
      { state := { st with error := errorText none "Failed to create scrim", loading := false },
        request := none, navigated := none }
    | some instant =>
      let body : CreateScrimBody :=
        { title := st.formData.title, description := st.formData.description,
          maps := st.formData.maps, max_rounds := st.formData.max_rounds,
          num_games := st.formData.num_games, scheduled_time := instant,
          max_participants := st.formData.max_participants }
      match answer with
      | .ok _ =>
        { state := { st with loading := false }, request := some body,
          navigated := some "/scrims" }
      | .error d =>
        { state := { st with error := errorText d "Failed to create scrim", loading := false },
          request := some body, navigated := none }

/-- The function `handleMapToggle`. -/
def handleMapToggle (map : String) (prev : FormData) : FormData :=
  { prev with
    maps := if prev.maps.contains map then prev.maps.filter (fun m => m != map)
            else prev.maps ++ [map] }

/-- The function `selectAllMaps`. -/
def selectAllMaps (maps : List String) (prev : FormData) : FormData :=
  { prev with maps := maps }

/-- The function `clearAllMaps`. -/
def clearAllMaps (prev : FormData) : FormData :=
  { prev with maps := [] }

/-- The values of the options of the "Max Participants" select. -/
def maxParticipantsOptions : List Int := [2, 4, 6, 8]

/-- The values of the options of the "Number of Games" select. -/
def numGamesOptions : List Int := [1, 2, 3, 5]

/-- The values of the options of the "Max Rounds" select. -/
def maxRoundsOptions : List Int := [13, 24]

/-- An input of the user to the form of `CreateScrim` (or the mount effect,
which sets the default scheduled time). -/
inductive FormEvent where
  | setTitle (value : String)
  | setDescription (value : String)
  | setMaxParticipants (value : Int)
  | setNumGames (value : Int)
  | setMaxRounds (value : Int)
  | setScheduledTime (value : Option Int)
  | mapToggle (map : String)
  | selectAll
  | clearAll
  deriving DecidableEq, Repr

/-- The event can be produced by a control of the form: a select produces
the value of one of its options, a map tile exists for each available map. -/
def FormEvent.offered (maps : List String) : FormEvent → Bool
  | .setMaxParticipants v => maxParticipantsOptions.contains v
  | .setNumGames v => numGamesOptions.contains v
  | .setMaxRounds v => maxRoundsOptions.contains v
  | .mapToggle m => maps.contains m
  | _ => true

/-- The `onChange`/`onClick` handler of each control, on the form data. -/
def FormEvent.apply (maps : List String) (formData : FormData) : FormEvent → FormData
  | .setTitle v => { formData with title := v }
  | .setDescription v => { formData with description := v }
  | .setMaxParticipants v => { formData with max_participants := v }
  | .setNumGames v => { formData with num_games := v }
  | .setMaxRounds v => { formData with max_rounds := v }
  | .setScheduledTime v => { formData with scheduled_time := v }
  | .mapToggle m => handleMapToggle m formData
  | .selectAll => selectAllMaps maps formData
  | .clearAll => clearAllMaps formData

/-- The form data reachable from the initial value through the controls of
the form, `maps` being the available maps. -/
inductive Reachable (maps : List String) : FormData → Prop where
  | init : Reachable maps initialFormData
  | step (formData : FormData) (e : FormEvent) :
      Reachable maps formData → e.offered maps = true → Reachable maps (e.apply maps formData)

/-- The value constraints of the specification on a scrim: `max_participants`
an even integer at least 2, `max_rounds` 13 or 24, `num_games` at least 1. -/
def specValues (max_participants max_rounds num_games : Int) : Prop :=
  (2 ≤ max_participants ∧ max_participants % 2 = 0) ∧
    (max_rounds = 13 ∨ max_rounds = 24) ∧ 1 ≤ num_games

/-! ## App: the routes -/

/-- What a route of `App` resolves to: one of the pages, or `<Navigate to=... />`. -/
inductive RouteElement where
  | login
  | register
  | dashboard (user : User)
  | teamManagement (user : User)
  | scrimBoard (user : User)
  | createScrim (user : User)
  | profile (user : User)
  | adminDashboard (user : User)
  | navigate (target : String)
  | noMatch
  deriving DecidableEq, Repr

/-- The `element` of the route of `App` that matches `path`, for the `user`
state of `App` (`none` when nobody is logged in). -/
def routeElement (user : Option User) (path : String) : RouteElement :=
  if path = "/login" then
    match user with
    | none => .login
    | some _ => .navigate "/dashboard"
  else if path = "/register" then
    match user with
    | none => .register
    | some _ => .navigate "/dashboard"
  else if path = "/dashboard" then
    match user with
    | some u => .dashboard u
    | none => .navigate "/login"
  else if path = "/team" then
    match user with
    | some u => .teamManagement u
    | none => .navigate "/login"
  else if path = "/scrims" then
    match user with
    | some u => .scrimBoard u
    | none => .navigate "/login"
  else if path = "/create-scrim" then
    match user with
    | some u => .createScrim u
    | none => .navigate "/login"
  else if path = "/profile" then
    match user with
    | some u => .profile u
    | none => .navigate "/login"
  else if path = "/admin" then
    match user with
    | some u => if u.is_admin then .adminDashboard u else .navigate "/dashboard"
    | none => .navigate "/dashboard"
  else if path = "/" then
    match user with
    | some _ => .navigate "/dashboard"
    | none => .navigate "/login"
  else .noMatch

/-! ## Header: the navigation entries -/

/-- An entry of the `navigation` array of `Header`. -/
structure NavItem where
  name : String
  href : String
  deriving DecidableEq, Repr

/-- The array `navigation` of `Header`: four entries, and the Admin entry
pushed when `user && user.is_admin`. -/
def navigation (user : Option User) : List NavItem :=
  let navigation : List NavItem :=
    [⟨"Dashboard", "/dashboard"⟩, ⟨"Scrims", "/scrims"⟩, ⟨"Team", "/team"⟩,
      ⟨"Profile", "/profile"⟩]
  match user with
  | some u => if u.is_admin then navigation ++ [⟨"Admin", "/admin"⟩] else navigation
  | none => navigation

/-- The links `Header` renders from `navigation`: none without a user. -/
def headerLinks (user : Option User) : List NavItem :=
  match user with
  | some _ => navigation user
  | none => []

/-! ## AdminDashboard -/

/-- One element of the array returned by `GET /api/admin/tier-requests`;
`created_at` is the time value of `new Date(request.created_at)`. -/
structure TierRequest where
  request_id : String
  username : String
  requested_tier : String
  status : String
  created_at : Option Int
  deriving DecidableEq, Repr

/-- The state of `AdminDashboard`; `processing` is the object that maps the id
of a request being handled to 'approving' or 'rejecting'. -/
structure AdminState where
  tierRequests : List TierRequest
  loading : Bool
  processing : List (String × String)
  error : String
  deriving DecidableEq, Repr

/-- The initial values of the `useState` calls of `AdminDashboard`. -/
def initialAdminState : AdminState :=
  { tierRequests := [], loading := true, processing := [], error := "" }

/-- The function `fetchTierRequests`; `answer` is the array the server
returns, `none` when the request fails. -/
def fetchTierRequests (answer : Option (List TierRequest)) (st : AdminState) : AdminState :=
  let st :=
    match answer with
    | some data => { st with tierRequests := data, error := "" }
    | none => { st with error := "Failed to load tier requests" }
  { st with loading := false }

/-- The value `processing[requestId]` is truthy. -/
def isProcessing (st : AdminState) (requestId : String) : Bool :=
  truthy (st.processing.lookup requestId)

/-- A request the admin dashboard sends. -/
inductive AdminRequest where
  | getTierRequests
  | postApprove (requestId : String)
  | postReject (requestId : String)
  deriving DecidableEq, Repr

/-- The function `handleApproveRequest` of `AdminDashboard`: the final state
and the requests sent.  `answer` is the answer of the server to the approve
request, `refetch` its answer to the fetch that follows an accepted one. -/
def handleApproveRequest (requestId : String) (answer : Except (Option String) Unit)
    (refetch : Option (List TierRequest)) (st : AdminState) : AdminState × List AdminRequest :=
  let st :=
    { st with
      processing := (requestId, "approving") :: st.processing.filter (fun e => e.1 != requestId) }
  let (st, sent) :=
    match answer with
    | .ok _ => (fetchTierRequests refetch st, [AdminRequest.postApprove requestId, .getTierRequests])
    | .error d =>
      ({ st with error := errorText d "Failed to approve request" },
        [AdminRequest.postApprove requestId])
  ({ st with processing := st.processing.filter (fun e => e.1 != requestId) }, sent)

/-- The function `handleRejectRequest` of `AdminDashboard`, of the same shape. -/
def handleRejectRequest (requestId : String) (answer : Except (Option String) Unit)
    (refetch : Option (List TierRequest)) (st : AdminState) : AdminState × List AdminRequest :=
  let st :=
    { st with
      processing := (requestId, "rejecting") :: st.processing.filter (fun e => e.1 != requestId) }
  let (st, sent) :=
    match answer with
    | .ok _ => (fetchTierRequests refetch st, [AdminRequest.postReject requestId, .getTierRequests])
    | .error d =>
      ({ st with error := errorText d "Failed to reject request" },
        [AdminRequest.postReject requestId])
  ({ st with processing := st.processing.filter (fun e => e.1 != requestId) }, sent)

/-- One rendered row of the request list: the request it shows and whether
its Approve and Reject buttons are disabled. -/
structure RequestRow where
  request : TierRequest
  disabled : Bool
  deriving DecidableEq, Repr

/-- What `AdminDashboard` renders: the Access Denied notice, the spinner, or
the dashboard with the count it prints as "Pending Requests" and the rows of
the request list. -/
inductive AdminView where
  | accessDenied
  | loading
  | dashboard (pendingCount : Nat) (rows : List RequestRow)
  deriving DecidableEq, Repr

/-- The render function of `AdminDashboard`. -/
def renderAdminDashboard (user : User) (st : AdminState) : AdminView :=
  if !user.is_admin then .accessDenied
  else if st.loading then .loading
  else
    .dashboard st.tierRequests.length
      (st.tierRequests.map (fun request =>
        { request := request, disabled := isProcessing st request.request_id }))

/-- The handlers a rendered view of `AdminDashboard` attaches to its controls. -/
inductive AdminAction where
  | refresh
  | approve (requestId : String)
  | reject (requestId : String)
  deriving DecidableEq, Repr

/-- The action is attached to an enabled control of the view: the Refresh
button of the dashboard, the Approve or Reject button of a row that is not
disabled. -/
def AdminAction.offeredIn : AdminAction → AdminView → Bool
  | .refresh, .dashboard _ _ => true
  | .approve requestId, .dashboard _ rows =>
    rows.any (fun row => row.request.request_id == requestId && !row.disabled)
  | .reject requestId, .dashboard _ rows =>
    rows.any (fun row => row.request.request_id == requestId && !row.disabled)
  | _, _ => false

/-- A request is listed after a request created before it. -/
def createdNoEarlier (a b : TierRequest) : Prop :=
  match a.created_at, b.created_at with
  | some x, some y => x ≤ y
  | _, _ => False

instance : DecidableRel createdNoEarlier := fun a b => by
  unfold createdNoEarlier
  cases a.created_at <;> cases b.created_at <;> infer_instance

/-! ## Profile: the tier upgrade request -/

/-- The `upgradeForm` state of `Profile`, also the body of
`POST /api/user/request-tier-upgrade`. -/
structure UpgradeForm where
  requested_tier : Int
  deriving DecidableEq, Repr

/-- The state of `Profile`. -/
structure ProfileState where
  loading : Bool
  error : String
  success : String
  upgradeForm : UpgradeForm
  deriving DecidableEq, Repr

/-- The initial values of the `useState` calls of `Profile`. -/
def initialProfileState : ProfileState :=
  { loading := false, error := "", success := "", upgradeForm := { requested_tier := 3 } }

/-- The values of the options of the "Requested Tier" select, labelled
"Tier 3", "Tier 2" and "Tier 1". -/
def requestedTierOptions : List Int := [3, 2, 1]

/-- The tier a value of the "Requested Tier" select stands for, as the label
of its option says. -/
def tierOfOption (value : Int) : Option String :=
  if value = 3 then some "tier_3"
  else if value = 2 then some "tier_2"
  else if value = 1 then some "tier_1"
  else none

/-- The guard of the "Request Tier Upgrade" section: `user.tier === 'public'`. -/
def upgradeSectionShown (user : User) : Bool := user.tier == "public"

/-- The function `handleTierUpgradeRequest`: the new state and the body posted. -/
def handleTierUpgradeRequest (st : ProfileState) (answer : Except (Option String) Unit) :
    ProfileState × UpgradeForm :=
  let st := { st with loading := true, error := "", success := "" }
  match answer with
  | .ok _ =>
    ({ st with
        success := "Tier upgrade request submitted successfully! An admin will review your request.",
        loading := false }, st.upgradeForm)
  | .error d =>
    ({ st with error := errorText d "Failed to submit tier upgrade request", loading := false },
      st.upgradeForm)

/-- An input of the user to the upgrade form of `Profile`. -/
inductive ProfileEvent where
  | selectTier (value : Int)
  | submit (answer : Except (Option String) Unit)

/-- The event can be produced by a control `Profile` renders for the user:
the form exists only in the upgrade section, and the select produces the
value of one of its options. -/
def ProfileEvent.offered (user : User) : ProfileEvent → Bool
  | .selectTier v => upgradeSectionShown user && requestedTierOptions.contains v
  | .submit _ => upgradeSectionShown user

/-- The handler of each control of the upgrade form, on the state. -/
def ProfileEvent.apply (st : ProfileState) : ProfileEvent → ProfileState
  | .selectTier v => { st with upgradeForm := { requested_tier := v } }
  | .submit answer => (handleTierUpgradeRequest st answer).1

/-- The states of `Profile` reachable from the initial one through the
controls rendered for `user`. -/
inductive ProfileReachable (user : User) : ProfileState → Prop where
  | init : ProfileReachable user initialProfileState
  | step (st : ProfileState) (e : ProfileEvent) :
      ProfileReachable user st → e.offered user = true → ProfileReachable user (e.apply st)

/-- The order of the specification: the tier `requested` is strictly above
the tier `current` in `public < tier_3 < tier_2 < tier_1`. -/
def strictlyAbove (current requested : String) : Bool :=
  match tierRank current, tierRank requested with
  | some c, some r => decide (c < r)
  | _, _ => false

/-! ## ScrimBoard: applications of a listed scrim -/

/-- An application recorded on a scrim: the applying team and what it posted. -/
structure Application where
  team_id : String
  body : ApplyBody
  deriving DecidableEq, Repr

/-- A scrim of the loaded list with its `applications` array, which the board
reads only for the count it prints (`scrim.applications?.length || 0`). -/
structure ListedScrim extends Scrim where
  applications : Option (List Application)
  deriving DecidableEq, Repr

/-- The count printed on the card: `scrim.applications?.length || 0`. -/
def applicationCount (scrim : ListedScrim) : Nat :=
  match scrim.applications with
  | some l => l.length
  | none => 0

/-- What `handleApplyToScrim` does once the server has answered the post: the
text it alerts and whether it fetches the scrims again. -/
structure ApplyFeedback where
  alert : String
  refetch : Bool
  deriving DecidableEq, Repr

/-- The second half of `handleApplyToScrim`, after the post. -/
def applyFeedback (answer : Except (Option String) Unit) : ApplyFeedback :=
  match answer with
  | .ok _ => { alert := "Applied to scrim successfully!", refetch := true }
  | .error d => { alert := errorText d "Failed to apply to scrim", refetch := false }

/-! ## CreateScrim and Dashboard: who may post a scrim -/

/-- What `CreateScrim` renders: nothing (`return null`) or the form. -/
inductive CreateScrimView where
  | nothing
  | form
  deriving DecidableEq, Repr

/-- The render guard of `CreateScrim`: `if (!user.team_id) return null`. -/
def renderCreateScrim (user : User) : CreateScrimView :=
  if !truthy user.team_id then .nothing else .form

/-- The route the mount effect of `CreateScrim` navigates to: '/team' when the
user has no team, none otherwise. -/
def createScrimRedirect (user : User) : Option String :=
  if !truthy user.team_id then some "/team" else none

/-- An entry of the `quickActions` array of `Dashboard`; `disabled` is absent
(falsy) on the first two entries. -/
structure QuickAction where
  title : String
  description : String
  href : String
  disabled : Bool
  deriving DecidableEq, Repr

/-- The array `quickActions` of `Dashboard`. -/
def quickActions (user : User) : List QuickAction :=
  [ { title := "Browse Scrims", description := "Find teams to scrim with", href := "/scrims",
      disabled := false },
    { title := if truthy user.team_id then "Manage Team" else "Create Team",
      description := if truthy user.team_id then "View team members" else "Start your own team",
      href := "/team", disabled := false },
    { title := "Create Scrim", description := "Post a new scrim request", href := "/create-scrim",
      disabled := !truthy user.team_id } ]

/-- The statistic `activeScrims` of `Dashboard`, printed as "Available
Scrims": `scrims.filter(s => s.status === 'open').length`, on the list that
`GET /api/scrims` returns, the list `ScrimBoard` shows. -/
def activeScrims (scrims : List Scrim) : Nat :=
  (scrims.filter (fun s => s.status == "open")).length

/-- A click on the link of a quick action: a disabled action prevents the
navigation, the others navigate to their route. -/
def quickActionClick (action : QuickAction) : Option String :=
  if action.disabled then none else some action.href

/-! ## ScrimBoard: grouping by date -/

/-- The month (1 to 12) and the day of the month of a calendar day given as
days since 1970-01-01, in the proleptic Gregorian calendar. -/
def civilMonthDay (days : Int) : Int × Int :=
  let z := days + 719468
  let doe := z % 146097
  let yoe := (doe - doe / 1460 + doe / 36524 - doe / 146096) / 365
  let doy := doe - (365 * yoe + yoe / 4 - yoe / 100)
  let mp := (5 * doy + 2) / 153
  let d := doy - (153 * mp + 2) / 5 + 1
  let m := if mp < 10 then mp + 3 else mp - 9
  (m, d)

/-- A text returned by `getDateFromDate`: 'Today', 'Tomorrow', the text of
`toLocaleDateString('en-US', { month: 'short', day: 'numeric' })`, which
spells the month and the day of the month and no year, or 'Invalid Date'. -/
inductive DateLabel where
  | today
  | tomorrow
  | monthDay (month day : Int)
  | invalidDate
  deriving DecidableEq, Repr

/-- The function `getDateFromDate` of `ScrimBoard`, on the time value of
`new Date(dateString)`. -/
def getDateFromDate (tz now : Int) (date : Option Int) : DateLabel :=
  let today := now
  let tomorrow := tomorrowOf today
  if toDateString tz date == toDateString tz (some today) then .today
  else if toDateString tz date == toDateString tz (some tomorrow) then .tomorrow
  else
    match date with
    | none => .invalidDate
    | some t => .monthDay (civilMonthDay (localDay tz t)).1 (civilMonthDay (localDay tz t)).2

/-- The body of the `forEach` of `groupScrimsByDate`: the scrim is pushed on
the array under `dateKey`, created empty when the key is new.  The object
`groups` is held as the list of its entries, in the order the keys were
created, which is the order `Object.entries` returns. -/
def pushGroup (groups : List (DateLabel × List Scrim)) (dateKey : DateLabel) (scrim : Scrim) :
    List (DateLabel × List Scrim) :=
  match groups with
  | [] => [(dateKey, [scrim])]
  | (key, group) :: rest =>
    if key = dateKey then (key, group ++ [scrim]) :: rest
    else (key, group) :: pushGroup rest dateKey scrim

/-- The function `groupScrimsByDate` of `ScrimBoard`.  Each call of
`getDateFromDate` reads the clock; one grouping is taken to run at one instant
`now`. -/
def groupScrimsByDate (tz now : Int) (scrims : List Scrim) : List (DateLabel × List Scrim) :=
  scrims.foldl
    (fun groups scrim => pushGroup groups (getDateFromDate tz now scrim.scheduled_time) scrim) []

/-- The two scrims are scheduled on the same local calendar day. -/
def sameLocalDay (tz : Int) (a b : Scrim) : Bool :=
  match a.scheduled_time, b.scheduled_time with
  | some x, some y => localDay tz x == localDay tz y
  | _, _ => false

/-- The two scrims are in the same group of the grouping. -/
def sameGroup (groups : List (DateLabel × List Scrim)) (a b : Scrim) : Bool :=
  groups.any (fun g => g.2.contains a && g.2.contains b)

/-- The list `groups` is the grouping of `input` by `label`: its keys are
distinct, every scrim of the input has its label among the keys, and the
array under a key is non-empty and holds the scrims of the input with that
label, in the order of the input. -/
def IsGrouping (label : Scrim → DateLabel) (input : List Scrim)
    (groups : List (DateLabel × List Scrim)) : Prop :=
  (groups.map Prod.fst).Nodup ∧
    (∀ s ∈ input, label s ∈ groups.map Prod.fst) ∧
    ∀ g ∈ groups, g.2 ≠ [] ∧ g.2 = input.filter (fun s => decide (label s = g.1))

/-! ## CreateScrim: the default scheduled time -/

/-- Milliseconds in a minute. -/
def msPerMinute : Int := 60000

/-- The date `now` of the mount effect after `now.setHours(now.getHours() + 1)`
and `now.setMinutes(0, 0, 0)`: one hour is added, then minutes, seconds and
milliseconds of the local time are set to zero. -/
def defaultInstant (tz now : Int) : Int :=
  let now := now + msPerHour
  (now + tz) / msPerHour * msPerHour - tz

/-- The text `now.toISOString().slice(0, 16)`: the UTC wall-clock time of the
date, cut after the minutes (for the four-digit years of the ISO format), held
as the wall-clock time it spells. -/
def defaultTimeString (tz now : Int) : Option Int :=
  some (defaultInstant tz now / msPerMinute * msPerMinute)

/-- The mount effect of `CreateScrim` on the form data: a user without a team
is redirected and nothing is set; otherwise the default scheduled time is set. -/
def createScrimMount (tz now : Int) (user : User) (prev : FormData) : FormData :=
  if !truthy user.team_id then prev
  else { prev with scheduled_time := defaultTimeString tz now }

/-- The instant `t` rounded to the nearest whole hour of local time (a half
hour rounds up). -/
def nearestHour (tz t : Int) : Int :=
  (t + tz + msPerHour / 2) / msPerHour * msPerHour - tz

/-! ## The engine of the specification

The operations `apply`, `resolve` and `approve` run on the server, whose code
is not among the sources; the front end only calls them.  They are modelled
here from the text of the specification, each on the aggregate it changes. -/

/-- The error kinds of the specification. -/
inductive EngineError where
  | forbidden
  | invalidState
  | invalidTransition
  | conflict
  | notFound
  | validationError
  deriving DecidableEq, Repr

/-- The resolution of an application. -/
inductive ApplicationStatus where
  | pending
  | accepted
  | rejected
  deriving DecidableEq, Repr

/-- An application as the engine holds it. -/
structure EngineApplication where
  application_id : String
  team_id : String
  status : ApplicationStatus
  deriving DecidableEq, Repr

/-- A scrim with its ordered list of applications, the aggregate `resolve`
changes. -/
structure EngineScrim where
  scrim_id : String
  team_id : String
  status : String
  applications : List EngineApplication
  deriving DecidableEq, Repr

/-- Modelled from the spec: the operation `resolve(scrimId, acceptedApplicationId)`
of the Application Engine, server code that is missing from the sources.  It
is invoked by the team that owns the scrim, on an open scrim, for one of its
pending applications; it sets the scrim to `filled`, marks that application
accepted and rejects every other pending application, in one step.  The
result is the aggregate after the call and the error, `none` on success; the
order of the three checks is a choice of the model. -/
def resolve (scrim : EngineScrim) (callerTeam acceptedApplicationId : String) :
    EngineScrim × Option EngineError :=
  if callerTeam ≠ scrim.team_id then (scrim, some .forbidden)
  else if scrim.status ≠ "open" then (scrim, some .invalidState)
  else if !scrim.applications.any
      (fun a => a.application_id == acceptedApplicationId && a.status == .pending) then
    (scrim, some .notFound)
  else
    ({ scrim with
        status := "filled",
        applications := scrim.applications.map (fun a =>
          if a.application_id = acceptedApplicationId then { a with status := .accepted }
          else if a.status = .pending then { a with status := .rejected }
          else a) }, none)

/-- The errors of `apply`, as the specification names them. -/
inductive ApplyError where
  | invalidState
  | selfApplication
  | duplicateApplication
  | forbidden
  deriving DecidableEq, Repr

/-- Modelled from the spec: the operation `apply(scrimId, teamId, proposal)` of
the Application Engine, server code that is missing from the sources; its
caller in the front end is `handleApplyToScrim`.  The preconditions are
checked in the order of the specification and the first that fails wins: the
scrim is open (else `InvalidState`), the applying team is not the owning team
(else `SelfApplication`), the team has no application on the scrim yet (else
`DuplicateApplication`), the tier of the team may see the tier of the scrim
(else `Forbidden`).  On success a pending application is appended, in arrival
order.  `scrimTier` and `teamTier` are the tiers of the scrim and of the
applying team, `applicationId` the id given to the new application; the result
is the aggregate after the call and the error, `none` on success. -/
def applyToScrim (scrim : EngineScrim) (scrimTier teamId teamTier applicationId : String) :
    EngineScrim × Option ApplyError :=
  if scrim.status ≠ "open" then (scrim, some .invalidState)
  else if teamId = scrim.team_id then (scrim, some .selfApplication)
  else if scrim.applications.any (fun a => a.team_id == teamId) then
    (scrim, some .duplicateApplication)
  else if !mayView teamTier scrimTier then (scrim, some .forbidden)
  else
    ({ scrim with
        applications := scrim.applications ++ [⟨applicationId, teamId, .pending⟩] }, none)

/-- The status of a tier upgrade request. -/
inductive RequestStatus where
  | pending
  | approved
  | rejected
  deriving DecidableEq, Repr

/-- An account as the Identity and Tier Store holds it. -/
structure Account where
  account_id : String
  tier : String
  is_admin : Bool
  deriving DecidableEq, Repr

/-- A tier upgrade request as the Tier Moderation Workflow holds it. -/
structure UpgradeRequest where
  request_id : String
  account_id : String
  requested_tier : String
  status : RequestStatus
  deriving DecidableEq, Repr

/-- Modelled from the spec: the operation `setTier(id, tier)` of the Identity
and Tier Store, server code that is missing from the sources: `Forbidden` when
the caller is not an admin, `InvalidTransition` when the tier is not strictly
above the current one. -/
def setTier (account : Account) (tier : String) (caller : Account) :
    Account × Option EngineError :=
  if !caller.is_admin then (account, some .forbidden)
  else if !strictlyAbove account.tier tier then (account, some .invalidTransition)
  else ({ account with tier := tier }, none)

/-- Modelled from the spec: the operation `approve(requestId, adminId)` of the
Tier Moderation Workflow, server code that is missing from the sources, on the
aggregate of the request and its requesting account: `Forbidden` when the
caller is not an admin, `InvalidState` when the request is not pending; on
success `setTier` is called with the requested tier and the request is marked
approved, both or neither. -/
def approve (account : Account) (request : UpgradeRequest) (admin : Account) :
    (Account × UpgradeRequest) × Option EngineError :=
  if !admin.is_admin then ((account, request), some .forbidden)
  else if request.status ≠ .pending then ((account, request), some .invalidState)
  else
    match setTier account request.requested_tier admin with
    | (_, some e) => ((account, request), some e)
    | (account, none) => ((account, { request with status := .approved }), none)

/-! ## Lemmas on the filter and sort pipeline -/

/-- The output of applyFilters is the sort of the scrims that pass the filter steps. -/
theorem applyFilters_eq_sort_filter (tz now : Int) (filters : Filters) (scrims : List Scrim) :
    applyFilters tz now filters scrims
      = sortByScheduled (scrims.filter (passesFilters tz now filters)) := by
  have hp : passesFilters tz now filters = fun s =>
      ((filters.day == "all" || dayFilter tz now filters s) &&
      (filters.format == "all" || formatFilter filters s) &&
      (filters.tier == "all" || tierFilter filters s)) := rfl
  rw [hp]
  have hd : (filters.day == "all") = decide (filters.day = "all") := by
    by_cases h : filters.day = "all" <;> simp [h]
  have hf : (filters.format == "all") = decide (filters.format = "all") := by
    by_cases h : filters.format = "all" <;> simp [h]
  have ht : (filters.tier == "all") = decide (filters.tier = "all") := by
    by_cases h : filters.tier = "all" <;> simp [h]
  rw [hd, hf, ht]
  by_cases hd : filters.day = "all" <;> by_cases hf : filters.format = "all" <;>
    by_cases ht : filters.tier = "all" <;>
    simp [applyFilters, hd, hf, ht, List.filter_filter, Bool.and_comm, Bool.and_left_comm]

/-- Sorting permutes the list. -/
theorem sortByScheduled_perm (l : List Scrim) : (sortByScheduled l).Perm l :=
  List.perm_insertionSort notAfter l

/-- Membership in the output of applyFilters. -/
theorem mem_applyFilters (tz now : Int) (filters : Filters) (scrims : List Scrim) (s : Scrim) :
    s ∈ applyFilters tz now filters scrims ↔ s ∈ scrims ∧ passesFilters tz now filters s = true := by
  rw [applyFilters_eq_sort_filter, (sortByScheduled_perm _).mem_iff, List.mem_filter]

/-- With every filter set to all, every scrim passes. -/
theorem passesFilters_allFilters (tz now : Int) (s : Scrim) :
    passesFilters tz now allFilters s = true := by
  simp [passesFilters, allFilters]


/-- The date tomorrow falls on the next local calendar day. -/
theorem localDay_tomorrowOf (tz now : Int) :
    localDay tz (tomorrowOf now) = localDay tz now + 1 := by
  unfold localDay tomorrowOf msPerDay
  omega

/-- On valid dates the comparator orders by instant. -/
theorem notAfter_iff_of_valid {a b : Scrim} (ha : a.scheduled_time.isSome = true)
    (hb : b.scheduled_time.isSome = true) :
    notAfter a b ↔ a.scheduled_time.getD 0 ≤ b.scheduled_time.getD 0 := by
  cases hx : a.scheduled_time with
  | none => simp [hx] at ha
  | some x =>
    cases hy : b.scheduled_time with
    | none => simp [hy] at hb
    | some y => simp [notAfter, sortCompare, compareScheduled, hx, hy]

/-- On valid dates the order of instants is the order of scrims. -/
theorem scheduledLe_of_valid {a b : Scrim} (ha : a.scheduled_time.isSome = true)
    (hb : b.scheduled_time.isSome = true)
    (h : a.scheduled_time.getD 0 ≤ b.scheduled_time.getD 0) : scheduledLe a b := by
  cases hx : a.scheduled_time with
  | none => simp [hx] at ha
  | some x =>
    cases hy : b.scheduled_time with
    | none => simp [hy] at hb
    | some y => simpa [scheduledLe, hx, hy] using h

/-- The sort of scrims with valid dates is ascending by scheduled time. -/
theorem sortByScheduled_sorted (l : List Scrim) (hv : validTimes l) :
    (sortByScheduled l).Pairwise scheduledLe := by
  have hmap : (sortByScheduled l).map (fun s => s.scheduled_time.getD 0)
      = (l.map (fun s => s.scheduled_time.getD 0)).insertionSort (· ≤ ·) :=
    List.map_insertionSort notAfter (fun (x y : Int) => x ≤ y)
      (fun s => s.scheduled_time.getD 0) l
      (fun a ha b hb => notAfter_iff_of_valid (hv a ha) (hv b hb))
  have hs : ((sortByScheduled l).map (fun s => s.scheduled_time.getD 0)).Pairwise (· ≤ ·) := by
    rw [hmap]
    exact List.sorted_insertionSort (· ≤ ·) _
  rw [List.pairwise_map] at hs
  refine hs.imp_of_mem ?_
  intro a b ha hb hab
  exact scheduledLe_of_valid (hv a ((sortByScheduled_perm l).mem_iff.mp ha))
    (hv b ((sortByScheduled_perm l).mem_iff.mp hb)) hab

/-- Inserting a scrim keeps the order of the scrims scheduled at one instant. -/
theorem filter_orderedInsert_scheduledAt (t : Int) (a : Scrim) (l : List Scrim) :
    (l.orderedInsert notAfter a).filter (scheduledAt t) = (a :: l).filter (scheduledAt t) := by
  induction l with
  | nil => simp
  | cons b l ih =>
    by_cases h : notAfter a b
    · simp [List.orderedInsert, h]
    · have hne : ¬ (scheduledAt t a = true ∧ scheduledAt t b = true) := by
        rintro ⟨h1, h2⟩
        apply h
        simp only [scheduledAt, beq_iff_eq] at h1 h2
        simp [notAfter, sortCompare, compareScheduled, h1, h2]
      simp only [List.orderedInsert, h, if_false, List.filter_cons, ih]
      by_cases h1 : scheduledAt t a = true <;> by_cases h2 : scheduledAt t b = true <;>
        simp_all

/-- The sort is stable: scrims scheduled at one instant keep their order. -/
theorem filter_sortByScheduled_scheduledAt (t : Int) (l : List Scrim) :
    (sortByScheduled l).filter (scheduledAt t) = l.filter (scheduledAt t) := by
  induction l with
  | nil => simp [sortByScheduled]
  | cons a l ih =>
    unfold sortByScheduled at ih ⊢
    rw [List.insertionSort, filter_orderedInsert_scheduledAt, List.filter_cons, List.filter_cons, ih]

/-- Filtering keeps the dates valid. -/
theorem validTimes_filter {l : List Scrim} (p : Scrim → Bool) (hv : validTimes l) :
    validTimes (l.filter p) :=
  fun s hs => hv s (List.mem_filter.mp hs).1

/-- For the day values the select offers and every format other than 2games, the
filter steps of the code decide the filter contract of the specification. -/
theorem passesFilters_eq_satisfiesFilters (tz now : Int) (filters : Filters) (s : Scrim)
    (hday : filters.day = "all" ∨ filters.day = "today" ∨ filters.day = "tomorrow")
    (hformat : filters.format = "all" ∨ filters.format = "1game" ∨
      filters.format = "mr13" ∨ filters.format = "mr24") :
    passesFilters tz now filters s = satisfiesFilters tz now filters s := by
  unfold passesFilters satisfiesFilters
  congr 1
  · congr 1
    · rcases hday with h | h | h <;> cases hs : s.scheduled_time <;>
        simp [h, hs, dayFilter, toDateString, localDay_tomorrowOf]
    · rcases hformat with h | h | h | h <;> simp [h, formatFilter]


/-! ## Scrim board: visibility, order and filters -/

/-- C1, as stated, fails: an account of tier public is shown a scrim of tier
tier_1 that is in the loaded list, although the visibility rule of the
specification does not let that account see it. -/
theorem board_shows_restricted_scrim_to_public_account :
    (⟨"s1", "teamA", "tier_1", "open", 1, 13, some 0⟩ : Scrim) ∈
        ((applyFilters 0 0 allFilters [⟨"s1", "teamA", "tier_1", "open", 1, 13, some 0⟩]).map
          (renderCard ⟨"u1", "public", none, false⟩)).map ScrimCard.scrim ∧
      (⟨"u1", "public", none, false⟩ : User).tier = "public" ∧
      mayView "public" "tier_1" = false := by
  decide

/-- C1, amended: with every filter set to 'all', the scrims the board shows to
an account are exactly the scrims of the loaded list, whatever the tier of the
account: every public-tier scrim of the list is shown, and so is every other
scrim of the list. -/
theorem board_shows_every_loaded_scrim (user : User) (tz now : Int) (scrims : List Scrim) :
    (((applyFilters tz now allFilters scrims).map (renderCard user)).map ScrimCard.scrim).Perm
        scrims ∧
      ∀ s ∈ scrims, s.tier = "public" →
        s ∈ ((applyFilters tz now allFilters scrims).map (renderCard user)).map ScrimCard.scrim := by
  have hmap : ((applyFilters tz now allFilters scrims).map (renderCard user)).map ScrimCard.scrim
      = applyFilters tz now allFilters scrims := by
    simp [List.map_map, Function.comp_def, renderCard]
  have hperm : (applyFilters tz now allFilters scrims).Perm scrims := by
    rw [applyFilters_eq_sort_filter]
    refine (sortByScheduled_perm _).trans ?_
    rw [List.filter_eq_self.mpr (fun s _ => passesFilters_allFilters tz now s)]
  rw [hmap]
  exact ⟨hperm, fun s hs _ => hperm.mem_iff.mpr hs⟩

/-- C2: for scrims with valid scheduled times and any filter setting, the
output of applyFilters is sorted ascending by scheduled time: each element is
scheduled no later than every later element, in particular than the next. -/
theorem applyFilters_sorted (tz now : Int) (filters : Filters) (scrims : List Scrim)
    (hv : validTimes scrims) :
    (applyFilters tz now filters scrims).Pairwise scheduledLe ∧
      (applyFilters tz now filters scrims).Chain' scheduledLe := by
  have h : (applyFilters tz now filters scrims).Pairwise scheduledLe := by
    rw [applyFilters_eq_sort_filter]
    exact sortByScheduled_sorted _ (validTimes_filter _ hv)
  exact ⟨h, List.Pairwise.chain' h⟩

/-- Witness of C2 on two scrims given latest first. -/
theorem applyFilters_sorted_witness :
    validTimes [⟨"s2", "teamA", "public", "open", 1, 13, some 7200000⟩,
        ⟨"s1", "teamB", "tier_3", "open", 2, 24, some 3600000⟩] ∧
      (applyFilters 0 0 allFilters [⟨"s2", "teamA", "public", "open", 1, 13, some 7200000⟩,
        ⟨"s1", "teamB", "tier_3", "open", 2, 24, some 3600000⟩]).Chain' scheduledLe :=
  ⟨by simp [validTimes],
    (applyFilters_sorted 0 0 allFilters _ (by simp [validTimes])).2⟩

/-- C3, as stated, fails: two scrims with the same scheduled time come out in
the order of the input, here with the larger scrim_id first, and the two
orders of the same input give two different outputs. -/
theorem applyFilters_ties_follow_input_order :
    applyFilters 0 0 allFilters
        [⟨"b", "teamB", "public", "open", 1, 13, some 5⟩,
          ⟨"a", "teamA", "public", "open", 1, 13, some 5⟩]
      = [⟨"b", "teamB", "public", "open", 1, 13, some 5⟩,
          ⟨"a", "teamA", "public", "open", 1, 13, some 5⟩] ∧
    ("a" : String) < "b" ∧
    List.Perm
      [(⟨"a", "teamA", "public", "open", 1, 13, some 5⟩ : Scrim),
        ⟨"b", "teamB", "public", "open", 1, 13, some 5⟩]
      [⟨"b", "teamB", "public", "open", 1, 13, some 5⟩,
        ⟨"a", "teamA", "public", "open", 1, 13, some 5⟩] ∧
    applyFilters 0 0 allFilters
        [⟨"a", "teamA", "public", "open", 1, 13, some 5⟩,
          ⟨"b", "teamB", "public", "open", 1, 13, some 5⟩]
      ≠ applyFilters 0 0 allFilters
        [⟨"b", "teamB", "public", "open", 1, 13, some 5⟩,
          ⟨"a", "teamA", "public", "open", 1, 13, some 5⟩] := by
  refine ⟨by decide, ?_, List.Perm.swap _ _ _, by decide⟩
  rw [String.lt_iff_toList_lt]
  decide

/-- C3, amended: ties are left in input order. For scrims with valid
scheduled times and any filter setting, the scrims of the output scheduled at
one instant are the scrims of the input that pass the filters and are
scheduled at that instant, in the order of the input. -/
theorem applyFilters_stable (tz now : Int) (filters : Filters) (scrims : List Scrim)
    (_hv : validTimes scrims) (t : Int) :
    (applyFilters tz now filters scrims).filter (scheduledAt t)
      = (scrims.filter (passesFilters tz now filters)).filter (scheduledAt t) := by
  rw [applyFilters_eq_sort_filter, filter_sortByScheduled_scheduledAt]

/-- Witness of C3 amended: the tie of the counterexample keeps its order. -/
theorem applyFilters_stable_witness :
    validTimes [⟨"b", "teamB", "public", "open", 1, 13, some 5⟩,
        ⟨"a", "teamA", "public", "open", 1, 13, some 5⟩] ∧
      (applyFilters 0 0 allFilters
          [⟨"b", "teamB", "public", "open", 1, 13, some 5⟩,
            ⟨"a", "teamA", "public", "open", 1, 13, some 5⟩]).filter (scheduledAt 5)
        = [⟨"b", "teamB", "public", "open", 1, 13, some 5⟩,
            ⟨"a", "teamA", "public", "open", 1, 13, some 5⟩] :=
  ⟨by simp [validTimes],
    (applyFilters_stable 0 0 allFilters _ (by simp [validTimes]) 5).trans (by decide)⟩

/-- For a day filter among all/today/tomorrow, a format filter among
all/1game/mr13/mr24 and any tier filter, in the fixed-offset model of the
zone, the output of applyFilters is a permutation of the input scrims that
satisfy every active filter; with all filters 'all' it is a permutation of the
whole input. -/
theorem applyFilters_perm_of_exact_format (tz now : Int) (filters : Filters)
    (scrims : List Scrim)
    (hday : filters.day = "all" ∨ filters.day = "today" ∨ filters.day = "tomorrow")
    (hformat : filters.format = "all" ∨ filters.format = "1game" ∨
      filters.format = "mr13" ∨ filters.format = "mr24") :
    (applyFilters tz now filters scrims).Perm (scrims.filter (satisfiesFilters tz now filters)) ∧
      (applyFilters tz now allFilters scrims).Perm scrims := by
  constructor
  · rw [applyFilters_eq_sort_filter]
    refine (sortByScheduled_perm _).trans ?_
    rw [List.filter_congr
      (fun s _ => passesFilters_eq_satisfiesFilters tz now filters s hday hformat)]
  · rw [applyFilters_eq_sort_filter]
    refine (sortByScheduled_perm _).trans ?_
    rw [List.filter_eq_self.mpr (fun s _ => passesFilters_allFilters tz now s)]

/-- C4, the code at the failing input: under the format filter 2games, whose
option reads "2+ Games", a scrim of three games satisfies the filter and is
the only one of the input that does, but applyFilters returns the empty list:
the matching scrim is dropped and the output is not a permutation of the
scrims that satisfy the filters. -/
theorem applyFilters_drops_scrim_matching_two_plus_games :
    satisfiesFilters 0 0 ⟨"all", "all", "2games", "all", "all"⟩
        ⟨"s1", "teamA", "tier_3", "open", 3, 24, some 5000⟩ = true ∧
      [(⟨"s1", "teamA", "tier_3", "open", 3, 24, some 5000⟩ : Scrim),
          ⟨"s2", "teamB", "public", "open", 1, 13, some 1000⟩].filter
          (satisfiesFilters 0 0 ⟨"all", "all", "2games", "all", "all"⟩)
        = [⟨"s1", "teamA", "tier_3", "open", 3, 24, some 5000⟩] ∧
      applyFilters 0 0 ⟨"all", "all", "2games", "all", "all"⟩
          [⟨"s1", "teamA", "tier_3", "open", 3, 24, some 5000⟩,
            ⟨"s2", "teamB", "public", "open", 1, 13, some 1000⟩] = [] ∧
      ¬ (applyFilters 0 0 ⟨"all", "all", "2games", "all", "all"⟩
          [⟨"s1", "teamA", "tier_3", "open", 3, 24, some 5000⟩,
            ⟨"s2", "teamB", "public", "open", 1, 13, some 1000⟩]).Perm
        ([(⟨"s1", "teamA", "tier_3", "open", 3, 24, some 5000⟩ : Scrim),
          ⟨"s2", "teamB", "public", "open", 1, 13, some 1000⟩].filter
          (satisfiesFilters 0 0 ⟨"all", "all", "2games", "all", "all"⟩)) := by
  decide


/-! ## Scrim board: the Apply action -/

/-- C5: the Apply action is offered for a scrim exactly when the user has a
team and the scrim belongs to a different team; for a scrim of the team of
the user the button is not rendered and no application can be submitted. -/
theorem apply_offered_iff_other_team (user : User) (scrim : Scrim) :
    ((renderCard user scrim).applyButton = true ↔
        hasTeam user = true ∧ some scrim.team_id ≠ user.team_id) ∧
      (clickApply user scrim ≠ none ↔
        hasTeam user = true ∧ some scrim.team_id ≠ user.team_id) ∧
      (some scrim.team_id = user.team_id →
        (renderCard user scrim).applyButton = false ∧ clickApply user scrim = none) := by
  have h1 : (renderCard user scrim).applyButton = true ↔
      hasTeam user = true ∧ some scrim.team_id ≠ user.team_id := by
    simp [renderCard, applyOffered, hasTeam]
  refine ⟨h1, ?_, ?_⟩
  · rw [← h1]
    unfold clickApply
    split <;> simp_all
  · intro h
    have h2 : (renderCard user scrim).applyButton = false := by
      simp [renderCard, applyOffered, h]
    exact ⟨h2, by simp [clickApply, h2]⟩

/-- Witness of C5: a member of teamA gets no Apply action on a scrim of teamA. -/
theorem apply_offered_iff_other_team_witness :
    (renderCard ⟨"u1", "public", some "teamA", false⟩
        ⟨"s1", "teamA", "public", "open", 1, 13, some 0⟩).applyButton = false ∧
      clickApply ⟨"u1", "public", some "teamA", false⟩
        ⟨"s1", "teamA", "public", "open", 1, 13, some 0⟩ = none :=
  (apply_offered_iff_other_team ⟨"u1", "public", some "teamA", false⟩
    ⟨"s1", "teamA", "public", "open", 1, 13, some 0⟩).2.2 rfl

/-- C6, the code at the failing input: for a scrim whose status is filled and
that belongs to another team, the board prints OPEN, renders the Apply button,
and a click posts the application, while the dashboard counts no available
scrim in the same list. -/
theorem board_submits_application_to_filled_scrim :
    (renderCard ⟨"u1", "public", some "teamA", false⟩
        ⟨"s1", "teamB", "public", "filled", 1, 13, some 0⟩).applyButton = true ∧
      (renderCard ⟨"u1", "public", some "teamA", false⟩
        ⟨"s1", "teamB", "public", "filled", 1, 13, some 0⟩).statusLabel = "OPEN" ∧
      clickApply ⟨"u1", "public", some "teamA", false⟩
          ⟨"s1", "teamB", "public", "filled", 1, 13, some 0⟩
        = some (.posted "s1" ⟨[], 13, 1, "Looking forward to a good scrim!"⟩) ∧
      activeScrims [⟨"s1", "teamB", "public", "filled", 1, 13, some 0⟩] = 0 ∧
      applyFilters 0 0 allFilters [⟨"s1", "teamB", "public", "filled", 1, 13, some 0⟩]
        = [⟨"s1", "teamB", "public", "filled", 1, 13, some 0⟩] := by
  decide

/-! ## Team management: who may create a team -/

/-- C7: `canCreateTeam` is true exactly when the tier is neither tier_1 nor
tier_2. For a user at tier_1 or tier_2 no state of the page shows the
create-team prompt or form or offers the submit, and the page without a team
shows the restriction notice. For a user at tier public or tier_3 the page
without a team shows the prompt or the form, the prompt opens the form, and
the submit of the form posts the create request. -/
theorem create_team_gated_by_tier (user : User) (st : TeamState) :
    (canCreateTeam user = true ↔ user.tier ≠ "tier_1" ∧ user.tier ≠ "tier_2") ∧
      ((user.tier = "tier_1" ∨ user.tier = "tier_2") →
        renderTeamManagement user st ≠ .createPrompt ∧
        renderTeamManagement user st ≠ .createForm ∧
        TeamAction.openCreateForm.offeredIn (renderTeamManagement user st) = false ∧
        TeamAction.submitCreateForm.offeredIn (renderTeamManagement user st) = false ∧
        (st.loading = false → st.team = none → renderTeamManagement user st = .restricted)) ∧
      ((user.tier = "public" ∨ user.tier = "tier_3") → st.loading = false → st.team = none →
        (renderTeamManagement user st = .createPrompt ∨
          renderTeamManagement user st = .createForm) ∧
        (renderTeamManagement user st = .createPrompt →
          TeamAction.openCreateForm.offeredIn (renderTeamManagement user st) = true) ∧
        (∀ create profile myTeam,
          renderTeamManagement user
            (teamStep user st create profile myTeam .openCreateForm).1 = .createForm) ∧
        (renderTeamManagement user st = .createForm →
          TeamAction.submitCreateForm.offeredIn (renderTeamManagement user st) = true ∧
          ∀ create profile myTeam,
            Request.postCreateTeam st.createForm ∈
              (teamStep user st create profile myTeam .submitCreateForm).2.2)) := by
  refine ⟨by simp [canCreateTeam], ?_, ?_⟩
  · intro ht
    have hc : canCreateTeam user = false := by
      rcases ht with h | h <;> simp [canCreateTeam, h]
    have hview : renderTeamManagement user st = .loading ∨
        renderTeamManagement user st = .restricted ∨
        renderTeamManagement user st = .renderError := by
      unfold renderTeamManagement
      cases st.loading <;> cases st.team <;> simp [hc]
    refine ⟨?_, ?_, ?_, ?_, ?_⟩
    · rcases hview with h | h | h <;> simp [h]
    · rcases hview with h | h | h <;> simp [h]
    · rcases hview with h | h | h <;> simp [h, TeamAction.offeredIn]
    · rcases hview with h | h | h <;> simp [h, TeamAction.offeredIn]
    · intro hl hteam
      simp [renderTeamManagement, hl, hteam, hc]
  · intro ht hl hteam
    have hc : canCreateTeam user = true := by
      rcases ht with h | h <;> simp [canCreateTeam, h]
    refine ⟨?_, ?_, ?_, ?_⟩
    · cases hs : st.showCreateForm <;> simp [renderTeamManagement, hl, hteam, hc, hs]
    · intro h
      simp [h, TeamAction.offeredIn]
    · intro create profile myTeam
      simp [teamStep, renderTeamManagement, hl, hteam, hc]
    · intro h
      refine ⟨by simp [h, TeamAction.offeredIn], ?_⟩
      intro create profile myTeam
      simp only [teamStep, handleCreateTeam]
      cases create with
      | error d => simp
      | ok u =>
        cases profile with
        | error d => simp
        | ok p =>
          cases myTeam with
          | error d => simp
          | ok t => simp

/-- Witness of C7: a tier_1 user without a team sees the restriction notice,
also when the form flag is set, and a public user without a team sees the
prompt. -/
theorem create_team_gated_by_tier_witness :
    renderTeamManagement ⟨"u1", "tier_1", none, false⟩
        { initialTeamState with loading := false, showCreateForm := true } = .restricted ∧
      (renderTeamManagement ⟨"u2", "public", none, false⟩
          (fetchTeamData ⟨"u2", "public", none, false⟩ none initialTeamState) = .createPrompt ∨
        renderTeamManagement ⟨"u2", "public", none, false⟩
          (fetchTeamData ⟨"u2", "public", none, false⟩ none initialTeamState) = .createForm) :=
  ⟨((create_team_gated_by_tier ⟨"u1", "tier_1", none, false⟩
      { initialTeamState with loading := false, showCreateForm := true }).2.1
        (Or.inl rfl)).2.2.2.2 rfl rfl,
    ((create_team_gated_by_tier ⟨"u2", "public", none, false⟩
      (fetchTeamData ⟨"u2", "public", none, false⟩ none initialTeamState)).2.2
        (Or.inl rfl) rfl rfl).1⟩


/-! ## Scrim creation -/

/-- C8, as stated, fails: with one map selected and the initial empty text as
scheduled time, handleSubmit sends no create request and sets the error
"Failed to create scrim". -/
theorem handleSubmit_unparsed_time_sends_nothing :
    (handleSubmit 0
        { initialCreateScrimState with
          formData := { initialFormData with title := "Evening", maps := ["Ascent"] } }
        (.ok ())).request = none ∧
      (handleSubmit 0
        { initialCreateScrimState with
          formData := { initialFormData with title := "Evening", maps := ["Ascent"] } }
        (.ok ())).state.error = "Failed to create scrim" := by
  decide

/-- C8, amended: with an empty maps list handleSubmit sets the error "Please
select at least one map", sends no create request and leaves the form data
unchanged; with a non-empty maps list and a scheduled time that spells a date
it sends the create request with the values of the form, and the only error
it can leave is the one of a request the server refused. -/
theorem handleSubmit_requires_a_map (tz : Int) (st : CreateScrimState)
    (answer : Except (Option String) Unit) :
    (st.formData.maps = [] →
      (handleSubmit tz st answer).state.error = "Please select at least one map" ∧
      (handleSubmit tz st answer).request = none ∧
      (handleSubmit tz st answer).navigated = none ∧
      (handleSubmit tz st answer).state.formData = st.formData) ∧
    (st.formData.maps ≠ [] → ∀ wall, st.formData.scheduled_time = some wall →
      (handleSubmit tz st answer).request
        = some ⟨st.formData.title, st.formData.description, st.formData.maps,
            st.formData.max_rounds, st.formData.num_games, wall - tz,
            st.formData.max_participants⟩ ∧
      (handleSubmit tz st answer).state.error
        = (match answer with
          | .ok _ => ""
          | .error d => errorText d "Failed to create scrim") ∧
      (handleSubmit tz st answer).state.formData = st.formData) := by
  constructor
  · intro h
    simp [handleSubmit, h]
  · intro h wall hw
    have hlen : st.formData.maps.length ≠ 0 := by
      simpa [List.length_eq_zero] using h
    cases answer <;> simp [handleSubmit, hlen, hw, parseLocal]

/-- Witness of C8 amended: the initial form, no map selected, is refused. -/
theorem handleSubmit_requires_a_map_witness :
    (handleSubmit 0 initialCreateScrimState (.ok ())).state.error
        = "Please select at least one map" ∧
      (handleSubmit 0 initialCreateScrimState (.ok ())).request = none :=
  ⟨((handleSubmit_requires_a_map 0 initialCreateScrimState (.ok ())).1 rfl).1,
    ((handleSubmit_requires_a_map 0 initialCreateScrimState (.ok ())).1 rfl).2.1⟩

/-- C9, as stated, fails: a form scheduled at the epoch, long before the
current instant, is submitted: the create request is sent, no error is set
and the page navigates to the scrim list. -/
theorem handleSubmit_sends_past_schedule :
    parseLocal 0 (some 0) = some 0 ∧ (0 : Int) ≤ 1700000000000 ∧
      (handleSubmit 0
        { initialCreateScrimState with
          formData := { initialFormData with maps := ["Ascent"], scheduled_time := some 0 } }
        (.ok ()))
      = { state :=
            { initialCreateScrimState with
              formData := { initialFormData with maps := ["Ascent"], scheduled_time := some 0 } },
          request := some ⟨"", "", ["Ascent"], 13, 1, 0, 2⟩,
          navigated := some "/scrims" } := by
  decide

/-- C9, amended: handleSubmit does not compare the schedule with the current
instant. For every form with a map selected whose scheduled time denotes an
instant at or before the current one, the create request is sent with that
instant, and when the server accepts it no error is set. -/
theorem handleSubmit_ignores_clock (tz now : Int) (st : CreateScrimState)
    (answer : Except (Option String) Unit) (t : Int)
    (hmaps : st.formData.maps ≠ [])
    (htime : parseLocal tz st.formData.scheduled_time = some t) (_hpast : t ≤ now) :
    (∃ body, (handleSubmit tz st answer).request = some body ∧ body.scheduled_time = t) ∧
      (answer = .ok () →
        (handleSubmit tz st answer).state.error = "" ∧
        (handleSubmit tz st answer).navigated = some "/scrims") := by
  have hlen : st.formData.maps.length ≠ 0 := by
    simpa [List.length_eq_zero] using hmaps
  constructor
  · cases answer <;> simp [handleSubmit, hlen, htime]
  · intro h
    subst h
    simp [handleSubmit, hlen, htime]

/-- Witness of C9 amended: the form of the counterexample, one day after the
epoch. -/
theorem handleSubmit_ignores_clock_witness :
    (∃ body,
      (handleSubmit 0
        { initialCreateScrimState with
          formData := { initialFormData with maps := ["Ascent"], scheduled_time := some 0 } }
        (.ok ())).request = some body ∧ body.scheduled_time = 0) :=
  (handleSubmit_ignores_clock 0 86400000
    { initialCreateScrimState with
      formData := { initialFormData with maps := ["Ascent"], scheduled_time := some 0 } }
    (.ok ()) 0 (by decide) (by decide) (by decide)).1

/-- Every control of the form keeps the value constraints. -/
theorem FormEvent.apply_specValues (maps : List String) (formData : FormData) (e : FormEvent)
    (h : specValues formData.max_participants formData.max_rounds formData.num_games)
    (he : e.offered maps = true) :
    specValues (e.apply maps formData).max_participants (e.apply maps formData).max_rounds
      (e.apply maps formData).num_games := by
  obtain ⟨hp, hr, hg⟩ := h
  cases e with
  | setMaxParticipants v =>
    simp [FormEvent.offered, maxParticipantsOptions] at he
    refine ⟨?_, hr, hg⟩
    simp only [FormEvent.apply]
    rcases he with h | h | h | h <;> subst h <;> decide
  | setNumGames v =>
    simp [FormEvent.offered, numGamesOptions] at he
    refine ⟨hp, hr, ?_⟩
    simp only [FormEvent.apply]
    rcases he with h | h | h | h <;> subst h <;> decide
  | setMaxRounds v =>
    simp [FormEvent.offered, maxRoundsOptions] at he
    exact ⟨hp, by simpa [FormEvent.apply] using he, hg⟩
  | setTitle v => exact ⟨hp, hr, hg⟩
  | setDescription v => exact ⟨hp, hr, hg⟩
  | setScheduledTime v => exact ⟨hp, hr, hg⟩
  | mapToggle m => exact ⟨hp, hr, hg⟩
  | selectAll => exact ⟨hp, hr, hg⟩
  | clearAll => exact ⟨hp, hr, hg⟩

/-- A create request carries the numeric fields of the form. -/
theorem handleSubmit_request_fields (tz : Int) (st : CreateScrimState)
    (answer : Except (Option String) Unit) (body : CreateScrimBody)
    (h : (handleSubmit tz st answer).request = some body) :
    body.max_participants = st.formData.max_participants ∧
      body.max_rounds = st.formData.max_rounds ∧ body.num_games = st.formData.num_games := by
  unfold handleSubmit at h
  simp only at h
  split at h
  · simp at h
  · split at h
    · simp at h
    · cases answer <;> simp at h <;> subst h <;> simp

/-- C10: in every form state reachable from the initial one through the
controls of the form, max_participants is an even integer at least 2,
max_rounds is 13 or 24 and num_games is at least 1, and every create request
handleSubmit sends from such a state carries such values. -/
theorem reachable_form_values (maps : List String) (formData : FormData)
    (h : Reachable maps formData) :
    specValues formData.max_participants formData.max_rounds formData.num_games ∧
      ∀ (tz : Int) (st : CreateScrimState) (answer : Except (Option String) Unit)
        (body : CreateScrimBody), st.formData = formData →
        (handleSubmit tz st answer).request = some body →
        specValues body.max_participants body.max_rounds body.num_games := by
  have hinv : specValues formData.max_participants formData.max_rounds formData.num_games := by
    induction h with
    | init => exact ⟨⟨by decide, by decide⟩, Or.inl rfl, by decide⟩
    | step fd e _ he ih => exact FormEvent.apply_specValues maps fd e ih he
  refine ⟨hinv, ?_⟩
  intro tz st answer body hst hreq
  obtain ⟨h1, h2, h3⟩ := handleSubmit_request_fields tz st answer body hreq
  rw [h1, h2, h3, hst]
  exact hinv

/-- Witness of C10: the form after choosing 4 teams and picking a map. -/
theorem reachable_form_values_witness :
    Reachable ["Ascent"]
        ((FormEvent.mapToggle "Ascent").apply ["Ascent"]
          ((FormEvent.setMaxParticipants 4).apply ["Ascent"] initialFormData)) ∧
      specValues 4 13 1 :=
  ⟨.step _ _ (.step _ _ .init (by decide)) (by decide),
    (reachable_form_values ["Ascent"] _
      (.step _ (.mapToggle "Ascent")
        (.step _ (.setMaxParticipants 4) .init (by decide)) (by decide))).1⟩

/-! ## Lemmas on the grouping -/

/-- The keys after a push: the new key goes last, a known key changes nothing. -/
theorem pushGroup_keys (groups : List (DateLabel × List Scrim)) (k : DateLabel) (s : Scrim) :
    (pushGroup groups k s).map Prod.fst
      = if k ∈ groups.map Prod.fst then groups.map Prod.fst else groups.map Prod.fst ++ [k] := by
  induction groups with
  | nil => simp [pushGroup]
  | cons g rest ih =>
    obtain ⟨key, group⟩ := g
    by_cases h : key = k
    · simp [pushGroup, h]
    · have h2 : ¬ k = key := fun e => h e.symm
      by_cases hk : k ∈ rest.map Prod.fst
      · simp only [pushGroup, h, if_false, List.map_cons, ih, hk, if_true, List.mem_cons, or_true]
      · simp only [pushGroup, h, if_false, List.map_cons, ih, hk, List.mem_cons, h2, or_self,
          List.cons_append]

/-- The entries after a push: an entry under another key is unchanged, the
entry under the pushed key gained the scrim at its end or is new. -/
theorem pushGroup_mem (groups : List (DateLabel × List Scrim)) (k : DateLabel) (s : Scrim)
    (hnd : (groups.map Prod.fst).Nodup) (p : DateLabel × List Scrim)
    (hp : p ∈ pushGroup groups k s) :
    (p.1 ≠ k ∧ p ∈ groups) ∨
      (p.1 = k ∧ ((∃ l, (k, l) ∈ groups ∧ p.2 = l ++ [s]) ∨
        (k ∉ groups.map Prod.fst ∧ p.2 = [s]))) := by
  induction groups with
  | nil =>
    simp only [pushGroup, List.mem_singleton] at hp
    subst hp
    exact Or.inr ⟨rfl, Or.inr ⟨by simp, rfl⟩⟩
  | cons g rest ih =>
    obtain ⟨key, group⟩ := g
    rw [List.map_cons, List.nodup_cons] at hnd
    obtain ⟨hkey, hrest⟩ := hnd
    by_cases h : key = k
    · simp only [pushGroup, h, if_true, List.mem_cons] at hp
      rcases hp with hp | hp
      · subst hp
        exact Or.inr ⟨rfl, Or.inl ⟨group, by simp [h], rfl⟩⟩
      · refine Or.inl ⟨?_, List.mem_cons_of_mem _ hp⟩
        intro e
        apply hkey
        rw [h, ← e]
        exact List.mem_map.mpr ⟨p, hp, rfl⟩
    · simp only [pushGroup, h, if_false, List.mem_cons] at hp
      rcases hp with hp | hp
      · subst hp
        exact Or.inl ⟨h, List.mem_cons_self _ _⟩
      · rcases ih hrest hp with ⟨h1, h2⟩ | ⟨h1, ⟨l, hl, h2⟩ | ⟨h2, h3⟩⟩
        · exact Or.inl ⟨h1, List.mem_cons_of_mem _ h2⟩
        · exact Or.inr ⟨h1, Or.inl ⟨l, List.mem_cons_of_mem _ hl, h2⟩⟩
        · refine Or.inr ⟨h1, Or.inr ⟨?_, h3⟩⟩
          simp only [List.map_cons, List.mem_cons, not_or]
          exact ⟨fun e => h e.symm, h2⟩

/-- One push keeps the grouping, for the input extended by the pushed scrim. -/
theorem IsGrouping.push (label : Scrim → DateLabel) (input : List Scrim)
    (groups : List (DateLabel × List Scrim)) (s : Scrim) (h : IsGrouping label input groups) :
    IsGrouping label (input ++ [s]) (pushGroup groups (label s) s) := by
  obtain ⟨hnd, hcov, hgr⟩ := h
  refine ⟨?_, ?_, ?_⟩
  · rw [pushGroup_keys]
    split
    · exact hnd
    · rename_i hk
      rw [List.nodup_append]
      refine ⟨hnd, List.nodup_singleton _, ?_⟩
      intro a ha hb
      rw [List.mem_singleton] at hb
      exact hk (hb ▸ ha)
  · intro x hx
    rw [pushGroup_keys]
    rw [List.mem_append, List.mem_singleton] at hx
    split
    · rcases hx with hx | hx
      · exact hcov x hx
      · subst hx
        assumption
    · rcases hx with hx | hx
      · exact List.mem_append_left _ (hcov x hx)
      · subst hx
        simp
  · intro p hp
    rcases pushGroup_mem groups (label s) s hnd p hp with
      ⟨h1, h2⟩ | ⟨h1, ⟨l, hl, h2⟩ | ⟨h2, h3⟩⟩
    · obtain ⟨hne, heq⟩ := hgr p h2
      refine ⟨hne, ?_⟩
      have hs : ¬ label s = p.1 := fun e => h1 e.symm
      rw [heq, List.filter_append]
      simp [hs]
    · obtain ⟨_, heq⟩ := hgr (label s, l) hl
      refine ⟨by simp [h2], ?_⟩
      have heq2 : l = input.filter (fun x => decide (label x = label s)) := heq
      rw [h2, List.filter_append, h1, ← heq2]
      simp
    · refine ⟨by simp [h3], ?_⟩
      have hempty : input.filter (fun x => decide (label x = p.1)) = [] := by
        rw [List.filter_eq_nil_iff]
        intro x hx
        simp only [decide_eq_true_eq]
        intro e
        apply h2
        rw [← h1, ← e]
        exact hcov x hx
      rw [h3, List.filter_append, hempty, h1]
      simp

/-- The loop of groupScrimsByDate keeps the grouping. -/
theorem IsGrouping.foldl (label : Scrim → DateLabel) (scrims : List Scrim) :
    ∀ (input : List Scrim) (groups : List (DateLabel × List Scrim)),
      IsGrouping label input groups →
      IsGrouping label (input ++ scrims)
        (scrims.foldl (fun groups scrim => pushGroup groups (label scrim) scrim) groups) := by
  induction scrims with
  | nil =>
    intro input groups h
    simpa using h
  | cons a t ih =>
    intro input groups h
    have h2 := ih (input ++ [a]) (pushGroup groups (label a) a) (h.push label input groups a)
    simpa [List.append_assoc] using h2

/-- The result of groupScrimsByDate is the grouping of its input by date label. -/
theorem groupScrimsByDate_isGrouping (tz now : Int) (scrims : List Scrim) :
    IsGrouping (fun s => getDateFromDate tz now s.scheduled_time) scrims
      (groupScrimsByDate tz now scrims) := by
  have h := IsGrouping.foldl (fun s => getDateFromDate tz now s.scheduled_time) scrims [] []
    ⟨by simp, by simp, by simp⟩
  simpa [groupScrimsByDate] using h

/-! ## Tier moderation: who reaches it and what the list offers -/

/-- The upgrade form of a reachable state of Profile holds the value of one
of the options of the select. -/
theorem ProfileReachable.requested_tier_mem (user : User) (st : ProfileState)
    (h : ProfileReachable user st) : st.upgradeForm.requested_tier ∈ requestedTierOptions := by
  induction h with
  | init => decide
  | step st e _ he ih =>
    cases e with
    | selectTier v =>
      simp only [ProfileEvent.offered, Bool.and_eq_true] at he
      have hv : v ∈ requestedTierOptions := by simpa using he.2
      simpa [ProfileEvent.apply] using hv
    | submit answer =>
      cases answer <;> simpa [ProfileEvent.apply, handleTierUpgradeRequest] using ih

/-- Every option of the select stands for a tier strictly above public. -/
theorem option_strictlyAbove_public (v : Int) (h : v ∈ requestedTierOptions) :
    ∃ tier, tierOfOption v = some tier ∧ strictlyAbove "public" tier = true := by
  simp only [requestedTierOptions, List.mem_cons, List.mem_singleton, List.not_mem_nil,
    or_false] at h
  rcases h with h | h | h <;> subst h
  · exact ⟨"tier_3", by decide, by decide⟩
  · exact ⟨"tier_2", by decide, by decide⟩
  · exact ⟨"tier_1", by decide, by decide⟩

/-- C11: for a user whose is_admin flag is false no approve or reject action
is reachable: the /admin route redirects to /dashboard and no route resolves
to the admin dashboard, the admin dashboard renders the Access Denied notice
in every state and offers no Approve or Reject there, and the navigation has
no Admin entry. -/
theorem moderation_unreachable_without_admin (user : User) (st : AdminState)
    (h : user.is_admin = false) :
    routeElement (some user) "/admin" = .navigate "/dashboard" ∧
      (∀ path u, routeElement (some user) path ≠ .adminDashboard u) ∧
      renderAdminDashboard user st = .accessDenied ∧
      (∀ requestId,
        (AdminAction.approve requestId).offeredIn (renderAdminDashboard user st) = false ∧
        (AdminAction.reject requestId).offeredIn (renderAdminDashboard user st) = false) ∧
      (∀ item ∈ navigation (some user), item.href ≠ "/admin" ∧ item.name ≠ "Admin") ∧
      (∀ item ∈ headerLinks (some user), item.href ≠ "/admin" ∧ item.name ≠ "Admin") := by
  have hview : renderAdminDashboard user st = .accessDenied := by
    simp [renderAdminDashboard, h]
  have hnav : ∀ item ∈ navigation (some user), item.href ≠ "/admin" ∧ item.name ≠ "Admin" := by
    intro item hitem
    simp only [navigation, h, Bool.false_eq_true, if_false, List.mem_cons, List.mem_singleton,
      List.not_mem_nil, or_false] at hitem
    rcases hitem with e | e | e | e <;> subst e <;> decide
  refine ⟨by simp [routeElement, h], ?_, hview, ?_, hnav, hnav⟩
  · intro path u
    unfold routeElement
    repeat' split
    all_goals simp_all
  · intro requestId
    rw [hview]
    exact ⟨rfl, rfl⟩

/-- Witness of C11: a public player without the admin flag. -/
theorem moderation_unreachable_without_admin_witness :
    routeElement (some ⟨"u1", "public", none, false⟩) "/admin" = .navigate "/dashboard" ∧
      renderAdminDashboard ⟨"u1", "public", none, false⟩
        { initialAdminState with
          tierRequests := [⟨"r1", "bob", "tier_3", "pending", some 0⟩], loading := false }
        = .accessDenied :=
  ⟨(moderation_unreachable_without_admin ⟨"u1", "public", none, false⟩ initialAdminState rfl).1,
    (moderation_unreachable_without_admin ⟨"u1", "public", none, false⟩
      { initialAdminState with
        tierRequests := [⟨"r1", "bob", "tier_3", "pending", some 0⟩], loading := false }
      rfl).2.2.1⟩

/-- C12: in every state of Profile reachable through the controls rendered
for the user, when the request form is offered each selectable tier and the
tier of the form are strictly above the tier of the user, and so is the tier
of the request a submit posts; when the form is not offered no control of it
exists, so no request is sent. -/
theorem upgrade_request_strictly_above (user : User) (st : ProfileState)
    (hreach : ProfileReachable user st) :
    (upgradeSectionShown user = true →
      (∀ v ∈ requestedTierOptions, ∃ tier,
        tierOfOption v = some tier ∧ strictlyAbove user.tier tier = true) ∧
      (∃ tier, tierOfOption st.upgradeForm.requested_tier = some tier ∧
        strictlyAbove user.tier tier = true) ∧
      ∀ answer, ∃ tier,
        tierOfOption (handleTierUpgradeRequest st answer).2.requested_tier = some tier ∧
        strictlyAbove user.tier tier = true) ∧
    (upgradeSectionShown user = false → ∀ e : ProfileEvent, e.offered user = false) := by
  constructor
  · intro hshown
    have htier : user.tier = "public" := by
      simpa [upgradeSectionShown] using hshown
    have hmem := ProfileReachable.requested_tier_mem user st hreach
    rw [htier]
    refine ⟨fun v hv => option_strictlyAbove_public v hv,
      option_strictlyAbove_public _ hmem, ?_⟩
    intro answer
    have hbody : (handleTierUpgradeRequest st answer).2 = st.upgradeForm := by
      cases answer <;> rfl
    rw [hbody]
    exact option_strictlyAbove_public _ hmem
  · intro hhidden e
    cases e <;> simp [ProfileEvent.offered, hhidden]

/-- Witness of C12: a public user who selected Tier 1. -/
theorem upgrade_request_strictly_above_witness :
    ProfileReachable ⟨"u1", "public", none, false⟩
        ((ProfileEvent.selectTier 1).apply initialProfileState) ∧
      ∃ tier, tierOfOption 1 = some tier ∧ strictlyAbove "public" tier = true :=
  ⟨.step _ _ .init (by decide),
    ((upgrade_request_strictly_above ⟨"u1", "public", none, false⟩
      ((ProfileEvent.selectTier 1).apply initialProfileState)
      (.step _ _ .init (by decide))).1 (by decide)).2.1⟩

/-- C13, as stated, fails: for a listed request whose status is approved the
admin dashboard offers Approve and Reject, and each handler posts its request. -/
theorem dashboard_offers_moderation_of_approved_request :
    (AdminAction.approve "r1").offeredIn
        (renderAdminDashboard ⟨"a1", "tier_1", none, true⟩
          { tierRequests := [⟨"r1", "bob", "tier_3", "approved", some 0⟩], loading := false,
            processing := [], error := "" }) = true ∧
      (AdminAction.reject "r1").offeredIn
        (renderAdminDashboard ⟨"a1", "tier_1", none, true⟩
          { tierRequests := [⟨"r1", "bob", "tier_3", "approved", some 0⟩], loading := false,
            processing := [], error := "" }) = true ∧
      (handleApproveRequest "r1" (.ok ()) (some [])
          { tierRequests := [⟨"r1", "bob", "tier_3", "approved", some 0⟩], loading := false,
            processing := [], error := "" }).2 = [.postApprove "r1", .getTierRequests] ∧
      (handleRejectRequest "r1" (.ok ()) (some [])
          { tierRequests := [⟨"r1", "bob", "tier_3", "approved", some 0⟩], loading := false,
            processing := [], error := "" }).2 = [.postReject "r1", .getTierRequests] := by
  decide

/-- C13, amended: the admin dashboard does not read the status of a request.
For an admin and a loaded list, Approve and Reject are offered for every
listed request that is not being processed, whatever its status, and each
handler posts its request to the server. -/
theorem moderation_offered_for_every_listed_request (user : User) (st : AdminState)
    (r : TierRequest) (hadmin : user.is_admin = true) (hload : st.loading = false)
    (hr : r ∈ st.tierRequests) (hproc : isProcessing st r.request_id = false) :
    (AdminAction.approve r.request_id).offeredIn (renderAdminDashboard user st) = true ∧
      (AdminAction.reject r.request_id).offeredIn (renderAdminDashboard user st) = true ∧
      ∀ answer refetch,
        AdminRequest.postApprove r.request_id ∈
          (handleApproveRequest r.request_id answer refetch st).2 ∧
        AdminRequest.postReject r.request_id ∈
          (handleRejectRequest r.request_id answer refetch st).2 := by
  have hview : renderAdminDashboard user st
      = .dashboard st.tierRequests.length
        (st.tierRequests.map (fun request =>
          { request := request, disabled := isProcessing st request.request_id })) := by
    simp [renderAdminDashboard, hadmin, hload]
  refine ⟨?_, ?_, ?_⟩
  · rw [hview]
    simp only [AdminAction.offeredIn, List.any_eq_true]
    exact ⟨⟨r, isProcessing st r.request_id⟩, List.mem_map.mpr ⟨r, hr, rfl⟩, by simp [hproc]⟩
  · rw [hview]
    simp only [AdminAction.offeredIn, List.any_eq_true]
    exact ⟨⟨r, isProcessing st r.request_id⟩, List.mem_map.mpr ⟨r, hr, rfl⟩, by simp [hproc]⟩
  · intro answer refetch
    cases answer <;> simp [handleApproveRequest, handleRejectRequest]

/-- Witness of C13 amended: the approved request of the counterexample. -/
theorem moderation_offered_for_every_listed_request_witness :
    (AdminAction.approve "r1").offeredIn
        (renderAdminDashboard ⟨"a1", "tier_1", none, true⟩
          { tierRequests := [⟨"r1", "bob", "tier_3", "approved", some 0⟩], loading := false,
            processing := [], error := "" }) = true :=
  (moderation_offered_for_every_listed_request ⟨"a1", "tier_1", none, true⟩
    { tierRequests := [⟨"r1", "bob", "tier_3", "approved", some 0⟩], loading := false,
      processing := [], error := "" }
    ⟨"r1", "bob", "tier_3", "approved", some 0⟩ rfl rfl (by decide) (by decide)).1

/-- C14, as stated, fails: a loaded list that holds the later request first is
displayed in that order, the request created later before the earlier one. -/
theorem dashboard_lists_later_request_first :
    renderAdminDashboard ⟨"a1", "tier_1", none, true⟩
        (fetchTierRequests
          (some [⟨"r2", "carol", "tier_2", "pending", some 2000⟩,
            ⟨"r1", "bob", "tier_3", "pending", some 1000⟩]) initialAdminState)
      = .dashboard 2
          [⟨⟨"r2", "carol", "tier_2", "pending", some 2000⟩, false⟩,
            ⟨⟨"r1", "bob", "tier_3", "pending", some 1000⟩, false⟩] ∧
      ¬ createdNoEarlier ⟨"r2", "carol", "tier_2", "pending", some 2000⟩
        ⟨"r1", "bob", "tier_3", "pending", some 1000⟩ := by
  decide

/-- C14, amended: the admin dashboard displays the requests of the list the
server returned in the order of that list, none dropped and none duplicated;
it does not sort, so the display is oldest first when the returned list is. -/
theorem dashboard_lists_in_loaded_order (user : User) (st : AdminState)
    (data : List TierRequest) (hadmin : user.is_admin = true) :
    ∃ rows,
      renderAdminDashboard user (fetchTierRequests (some data) st)
        = .dashboard data.length rows ∧
      rows.map RequestRow.request = data ∧
      (data.Pairwise createdNoEarlier →
        (rows.map RequestRow.request).Pairwise createdNoEarlier) := by
  refine ⟨data.map (fun request =>
      { request := request,
        disabled := isProcessing (fetchTierRequests (some data) st) request.request_id }),
    ?_, ?_, ?_⟩
  · simp [renderAdminDashboard, hadmin, fetchTierRequests]
  · simp [List.map_map, Function.comp_def]
  · intro h
    simpa [List.map_map, Function.comp_def] using h

/-- Witness of C14 amended: a list returned oldest first is displayed oldest
first. -/
theorem dashboard_lists_in_loaded_order_witness :
    ∃ rows,
      renderAdminDashboard ⟨"a1", "tier_1", none, true⟩
        (fetchTierRequests
          (some [⟨"r1", "bob", "tier_3", "pending", some 1000⟩,
            ⟨"r2", "carol", "tier_2", "pending", some 2000⟩]) initialAdminState)
        = .dashboard 2 rows ∧
      rows.map RequestRow.request
        = [⟨"r1", "bob", "tier_3", "pending", some 1000⟩,
            ⟨"r2", "carol", "tier_2", "pending", some 2000⟩] :=
  (dashboard_lists_in_loaded_order ⟨"a1", "tier_1", none, true⟩ initialAdminState
    [⟨"r1", "bob", "tier_3", "pending", some 1000⟩,
      ⟨"r2", "carol", "tier_2", "pending", some 2000⟩] rfl).imp
    (fun _ h => ⟨h.1, h.2.1⟩)

/-! ## Duplicate applications, team creation and capacity -/

/-- C15: on the model of apply made from the specification, a team that
already has an application on a scrim is refused and the scrim and its
applications are unchanged; on an open scrim of another team the refusal is
DuplicateApplication. After a first call that succeeded, a second call for the
same team and scrim yields DuplicateApplication and the team still has exactly
one application. A first call on an open scrim of another team, visible to the
tier of the team, succeeds. The caller in the front end, handleApplyToScrim,
posts the application of a user with a team, and on a refusal alerts the
detail of the server and does not reload the list. -/
theorem second_apply_is_duplicate (scrim : EngineScrim)
    (scrimTier teamId teamTier id1 id2 : String) :
    (scrim.applications.any (fun a => a.team_id == teamId) = true →
      (applyToScrim scrim scrimTier teamId teamTier id2).2 ≠ none ∧
      (applyToScrim scrim scrimTier teamId teamTier id2).1 = scrim ∧
      (scrim.status = "open" → teamId ≠ scrim.team_id →
        (applyToScrim scrim scrimTier teamId teamTier id2).2 = some .duplicateApplication)) ∧
    ((applyToScrim scrim scrimTier teamId teamTier id1).2 = none →
      applyToScrim (applyToScrim scrim scrimTier teamId teamTier id1).1 scrimTier teamId
          teamTier id2
        = ((applyToScrim scrim scrimTier teamId teamTier id1).1, some .duplicateApplication) ∧
      ((applyToScrim scrim scrimTier teamId teamTier id1).1.applications.filter
        (fun a => a.team_id == teamId)).length = 1) ∧
    (scrim.status = "open" → teamId ≠ scrim.team_id →
      scrim.applications.any (fun a => a.team_id == teamId) = false →
      mayView teamTier scrimTier = true →
      (applyToScrim scrim scrimTier teamId teamTier id1).2 = none) ∧
    (∀ (user : User) (scrimId : String), hasTeam user = true →
      handleApplyToScrim user scrimId
        = .posted scrimId ⟨[], 13, 1, "Looking forward to a good scrim!"⟩) ∧
    ∀ detail, applyFeedback (.error detail)
      = ⟨errorText detail "Failed to apply to scrim", false⟩ := by
  refine ⟨?_, ?_, ?_, ?_, fun _ => rfl⟩
  · intro hdup
    refine ⟨?_, ?_, ?_⟩
    · unfold applyToScrim
      split
      · simp
      · split
        · simp
        · simp [hdup]
    · unfold applyToScrim
      split
      · rfl
      · split
        · rfl
        · simp [hdup]
    · intro hopen hother
      simp [applyToScrim, hopen, hother, hdup]
  · intro hok
    have hopen : scrim.status = "open" := by
      by_contra h
      simp [applyToScrim, h] at hok
    have hother : teamId ≠ scrim.team_id := by
      intro h
      simp [applyToScrim, hopen, h] at hok
    have hnone : scrim.applications.any (fun a => a.team_id == teamId) = false := by
      cases h : scrim.applications.any (fun a => a.team_id == teamId)
      · rfl
      · simp [applyToScrim, hopen, hother, h] at hok
    have hview : mayView teamTier scrimTier = true := by
      cases h : mayView teamTier scrimTier
      · simp [applyToScrim, hopen, hother, hnone, h] at hok
      · rfl
    have hfirst : applyToScrim scrim scrimTier teamId teamTier id1
        = ({ scrim with
              applications := scrim.applications ++ [⟨id1, teamId, .pending⟩] }, none) := by
      simp [applyToScrim, hopen, hother, hnone, hview]
    rw [hfirst]
    refine ⟨by simp [applyToScrim, hopen, hother], ?_⟩
    have hfilter : scrim.applications.filter (fun a => a.team_id == teamId) = [] := by
      rw [List.filter_eq_nil_iff]
      intro a ha
      have := List.any_eq_false.mp hnone a ha
      simpa using this
    simp [List.filter_append, hfilter]
  · intro hopen hother hnone hview
    simp [applyToScrim, hopen, hother, hnone, hview]
  · intro user scrimId hteam
    have ht : truthy user.team_id = true := hteam
    simp [handleApplyToScrim, ht]

/-- Witness of C15: teamB applies twice to an open public scrim of teamA. -/
theorem second_apply_is_duplicate_witness :
    applyToScrim ⟨"s1", "teamA", "open", []⟩ "public" "teamB" "public" "a1"
        = (⟨"s1", "teamA", "open", [⟨"a1", "teamB", .pending⟩]⟩, none) ∧
      applyToScrim
          (applyToScrim ⟨"s1", "teamA", "open", []⟩ "public" "teamB" "public" "a1").1
          "public" "teamB" "public" "a2"
        = ((applyToScrim ⟨"s1", "teamA", "open", []⟩ "public" "teamB" "public" "a1").1,
            some .duplicateApplication) :=
  ⟨by decide,
    ((second_apply_is_duplicate ⟨"s1", "teamA", "open", []⟩ "public" "teamB" "public"
      "a1" "a2").2.1 (by decide)).1⟩

/-- C16, the code at the failing input: a public user who belongs to teamA and
whose my-team fetch fails is shown the create-team prompt next to the load
error; the prompt opens the form, and the submit of the form posts the create
request. -/
theorem create_team_offered_after_failed_team_fetch :
    hasTeam ⟨"u1", "public", some "teamA", false⟩ = true ∧
      (fetchTeamData ⟨"u1", "public", some "teamA", false⟩ none initialTeamState).error
        = "Failed to load team data" ∧
      renderTeamManagement ⟨"u1", "public", some "teamA", false⟩
        (fetchTeamData ⟨"u1", "public", some "teamA", false⟩ none initialTeamState)
        = .createPrompt ∧
      TeamAction.openCreateForm.offeredIn
        (renderTeamManagement ⟨"u1", "public", some "teamA", false⟩
          (fetchTeamData ⟨"u1", "public", some "teamA", false⟩ none initialTeamState)) = true ∧
      renderTeamManagement ⟨"u1", "public", some "teamA", false⟩
        (teamStep ⟨"u1", "public", some "teamA", false⟩
          (fetchTeamData ⟨"u1", "public", some "teamA", false⟩ none initialTeamState)
          (.ok ()) (.error none) (.error none) .openCreateForm).1 = .createForm ∧
      (teamStep ⟨"u1", "public", some "teamA", false⟩
          (teamStep ⟨"u1", "public", some "teamA", false⟩
            (fetchTeamData ⟨"u1", "public", some "teamA", false⟩ none initialTeamState)
            (.ok ()) (.error none) (.error none) .openCreateForm).1
          (.error (some "User already in a team")) (.error none) (.error none)
          .submitCreateForm).2.2
        = [.postCreateTeam ⟨"", "", 5⟩] := by
  decide

/-- C17, the code at the failing input: the owner of a team of four members
out of five, for whom the guard written on the Invite Member button holds,
gets no button: once the team is loaded the render throws, as it does for
every user and every loaded team, and no control of the page is left. -/
theorem team_details_render_throws :
    inviteGuard ⟨"u1", "public", some "teamA", false⟩
        ⟨"teamA", "A", "u1", ["u1", "u2", "u3", "u4"], 5, "public"⟩ = true ∧
      renderTeamManagement ⟨"u1", "public", some "teamA", false⟩
        (fetchTeamData ⟨"u1", "public", some "teamA", false⟩
          (some ⟨"teamA", "A", "u1", ["u1", "u2", "u3", "u4"], 5, "public"⟩) initialTeamState)
        = .renderError ∧
      (∀ (user : User) (st : TeamState) (team : Team), st.loading = false →
        st.team = some team → renderTeamManagement user st = .renderError) ∧
      ∀ action : TeamAction, action.offeredIn .renderError = false := by
  refine ⟨by decide, by decide, ?_, ?_⟩
  · intro user st team hl ht
    simp [renderTeamManagement, hl, ht]
  · intro action
    cases action <;> rfl

/-- C18: for a user with a team, owner or not, CreateScrim renders the form,
does not redirect, handleSubmit posts a form that has a map and a date, and
the Create Scrim action of the dashboard navigates to the page; for a user
without a team CreateScrim renders nothing and redirects to /team, and the
Create Scrim action of the dashboard is disabled and does not navigate. -/
theorem create_scrim_open_to_every_member (user : User) :
    (hasTeam user = true →
      renderCreateScrim user = .form ∧ createScrimRedirect user = none ∧
      (∀ (tz : Int) (st : CreateScrimState) (answer : Except (Option String) Unit) (wall : Int),
        st.formData.maps ≠ [] → st.formData.scheduled_time = some wall →
        ∃ body, (handleSubmit tz st answer).request = some body) ∧
      ∀ action ∈ quickActions user, action.href = "/create-scrim" →
        action.disabled = false ∧ quickActionClick action = some "/create-scrim") ∧
    (hasTeam user = false →
      renderCreateScrim user = .nothing ∧ createScrimRedirect user = some "/team" ∧
      ∀ action ∈ quickActions user, action.href = "/create-scrim" →
        action.disabled = true ∧ quickActionClick action = none) ∧
    ∃ action ∈ quickActions user, action.href = "/create-scrim" ∧ action.title = "Create Scrim" := by
  refine ⟨?_, ?_, ?_⟩
  · intro h
    have ht : truthy user.team_id = true := h
    refine ⟨by simp [renderCreateScrim, ht], by simp [createScrimRedirect, ht], ?_, ?_⟩
    · intro tz st answer wall hmaps htime
      have hlen : st.formData.maps.length ≠ 0 := by
        simpa [List.length_eq_zero] using hmaps
      cases answer <;> simp [handleSubmit, hlen, htime, parseLocal]
    · intro action haction hhref
      simp only [quickActions, List.mem_cons, List.mem_singleton, List.not_mem_nil,
        or_false] at haction
      rcases haction with e | e | e <;> subst e
      · simp at hhref
      · simp at hhref
      · simp [quickActionClick, ht]
  · intro h
    have ht : truthy user.team_id = false := h
    refine ⟨by simp [renderCreateScrim, ht], by simp [createScrimRedirect, ht], ?_⟩
    intro action haction hhref
    simp only [quickActions, List.mem_cons, List.mem_singleton, List.not_mem_nil,
      or_false] at haction
    rcases haction with e | e | e <;> subst e
    · simp at hhref
    · simp at hhref
    · simp [quickActionClick, ht]
  · exact ⟨_, List.mem_cons_of_mem _ (List.mem_cons_of_mem _ (List.mem_singleton_self _)),
      rfl, rfl⟩

/-- Witness of C18: a member of teamA who does not own it gets the form, a
user without a team is redirected. -/
theorem create_scrim_open_to_every_member_witness :
    renderCreateScrim ⟨"u2", "tier_2", some "teamA", false⟩ = .form ∧
      createScrimRedirect ⟨"u3", "public", none, false⟩ = some "/team" :=
  ⟨((create_scrim_open_to_every_member ⟨"u2", "tier_2", some "teamA", false⟩).1 (by decide)).1,
    ((create_scrim_open_to_every_member ⟨"u3", "public", none, false⟩).2.1 (by decide)).2.1⟩

/-! ## Grouping of the board by date -/

/-- C19: groupScrimsByDate places each scrim in exactly one group, the one
keyed by its date label: the keys are distinct, each scrim is in the group of
its label, and each group is the list of the input scrims with that label in
the order of the input; so the groups of a list sorted by scheduled time are
sorted by scheduled time. -/
theorem groupScrimsByDate_stable (tz now : Int) (scrims : List Scrim) :
    ((groupScrimsByDate tz now scrims).map Prod.fst).Nodup ∧
      (∀ s ∈ scrims, ∃ group,
        (getDateFromDate tz now s.scheduled_time, group) ∈ groupScrimsByDate tz now scrims ∧
        s ∈ group) ∧
      (∀ key group, (key, group) ∈ groupScrimsByDate tz now scrims →
        group = scrims.filter (fun s => decide (getDateFromDate tz now s.scheduled_time = key)) ∧
        group.Sublist scrims ∧
        ∀ s ∈ group, getDateFromDate tz now s.scheduled_time = key) ∧
      (scrims.Pairwise scheduledLe →
        ∀ key group, (key, group) ∈ groupScrimsByDate tz now scrims →
          group.Pairwise scheduledLe) := by
  obtain ⟨hnd, hcov, hgr⟩ := groupScrimsByDate_isGrouping tz now scrims
  have hgroup : ∀ key group, (key, group) ∈ groupScrimsByDate tz now scrims →
      group = scrims.filter (fun s => decide (getDateFromDate tz now s.scheduled_time = key)) :=
    fun key group h => (hgr (key, group) h).2
  refine ⟨hnd, ?_, ?_, ?_⟩
  · intro s hs
    obtain ⟨⟨key, group⟩, hmem, hkey⟩ := List.mem_map.mp (hcov s hs)
    simp only at hkey
    subst hkey
    refine ⟨group, hmem, ?_⟩
    rw [hgroup _ group hmem, List.mem_filter]
    exact ⟨hs, by simp⟩
  · intro key group h
    have e := hgroup key group h
    refine ⟨e, ?_, ?_⟩
    · rw [e]
      exact List.filter_sublist _
    · intro s hs
      rw [e, List.mem_filter] at hs
      simpa using hs.2
  · intro hsorted key group h
    rw [hgroup key group h]
    exact hsorted.sublist (List.filter_sublist _)

/-- Witness of C19: two scrims of one day around a scrim of another day keep
their order inside their group. -/
theorem groupScrimsByDate_stable_witness :
    groupScrimsByDate 0 1793923200000
        [⟨"s1", "teamA", "public", "open", 1, 13, some 1799107200000⟩,
          ⟨"s2", "teamB", "public", "open", 1, 13, some 1799193600000⟩,
          ⟨"s3", "teamC", "public", "open", 1, 13, some 1799110800000⟩]
      = [(.monthDay 1 5,
            [⟨"s1", "teamA", "public", "open", 1, 13, some 1799107200000⟩,
              ⟨"s3", "teamC", "public", "open", 1, 13, some 1799110800000⟩]),
          (.monthDay 1 6, [⟨"s2", "teamB", "public", "open", 1, 13, some 1799193600000⟩])] ∧
      ((groupScrimsByDate 0 1793923200000
        [⟨"s1", "teamA", "public", "open", 1, 13, some 1799107200000⟩,
          ⟨"s2", "teamB", "public", "open", 1, 13, some 1799193600000⟩,
          ⟨"s3", "teamC", "public", "open", 1, 13, some 1799110800000⟩]).map Prod.fst).Nodup :=
  ⟨by decide, (groupScrimsByDate_stable 0 1793923200000 _).1⟩

/-- C20, the code at the failing input: on 2026-11-06 a scrim scheduled on
2027-01-05 and a scrim scheduled on 2028-01-05 get the same key, the text of
January 5 without a year, and fall in one group although they are not on the
same calendar day. -/
theorem groupScrimsByDate_merges_years :
    groupScrimsByDate 0 1793923200000
        [⟨"s1", "teamA", "public", "open", 1, 13, some 1799107200000⟩,
          ⟨"s2", "teamB", "public", "open", 1, 13, some 1830643200000⟩]
      = [(.monthDay 1 5,
          [⟨"s1", "teamA", "public", "open", 1, 13, some 1799107200000⟩,
            ⟨"s2", "teamB", "public", "open", 1, 13, some 1830643200000⟩])] ∧
      sameGroup
        (groupScrimsByDate 0 1793923200000
          [⟨"s1", "teamA", "public", "open", 1, 13, some 1799107200000⟩,
            ⟨"s2", "teamB", "public", "open", 1, 13, some 1830643200000⟩])
        ⟨"s1", "teamA", "public", "open", 1, 13, some 1799107200000⟩
        ⟨"s2", "teamB", "public", "open", 1, 13, some 1830643200000⟩ = true ∧
      sameLocalDay 0 ⟨"s1", "teamA", "public", "open", 1, 13, some 1799107200000⟩
        ⟨"s2", "teamB", "public", "open", 1, 13, some 1830643200000⟩ = false ∧
      localDay 0 1799107200000 = 20823 ∧ localDay 0 1830643200000 = 21188 := by
  decide

/-! ## Scrim creation: the default scheduled time -/

/-- C21, the code at the failing input: two hours east of UTC, at 12:30 local
time (10:30 UTC), the default text spells 11:00, which handleSubmit reads as
11:00 local time (09:00 UTC), before the current instant, and posts; in that
zone the default denotes an instant not later than the current one at every
instant. -/
theorem default_time_in_the_past_east_of_utc :
    defaultTimeString 7200000 1793961000000 = some 1793962800000 ∧
      parseLocal 7200000 (defaultTimeString 7200000 1793961000000) = some 1793955600000 ∧
      (1793955600000 : Int) < 1793961000000 ∧
      (handleSubmit 7200000
        { initialCreateScrimState with
          formData :=
            handleMapToggle "Ascent"
              (createScrimMount 7200000 1793961000000 ⟨"u1", "public", some "teamA", false⟩
                initialFormData) }
        (.ok ())).request = some ⟨"", "", ["Ascent"], 13, 1, 1793955600000, 2⟩ ∧
      ∀ now : Int, ∃ t, parseLocal 7200000 (defaultTimeString 7200000 now) = some t ∧ t ≤ now := by
  refine ⟨by decide, by decide, by decide, by decide, ?_⟩
  intro now
  refine ⟨_, rfl, ?_⟩
  simp only [defaultInstant, msPerHour, msPerMinute]
  omega

/-- C26, the code at the failing input: at 12:45 local time the default is
13:00, the hour below 13:45, while 13:45 rounded to the nearest hour is 14:00. -/
theorem default_time_floors_the_hour :
    defaultInstant 0 1793969100000 = 1793970000000 ∧
      nearestHour 0 (1793969100000 + msPerHour) = 1793973600000 ∧
      defaultInstant 0 1793969100000 ≠ nearestHour 0 (1793969100000 + msPerHour) ∧
      defaultInstant 0 1793969100000 - 1793969100000 = 15 * msPerMinute := by
  decide

/-! ## Team creation: the error report -/

/-- C22, the code at the failing input: the create request succeeds and the
profile fetch that follows fails. The error "Failed to create team" is set
although the team was created, the user still has no team_id, and the form
stays open. The same error is set when only the last fetch, of the team,
fails. -/
theorem create_team_error_after_successful_create :
    (handleCreateTeam ⟨"u1", "public", none, false⟩
        { initialTeamState with
          loading := false, showCreateForm := true, createForm := ⟨"Alpha", "We scrim", 5⟩ }
        (.ok ()) (.error none) (.error none))
      = ({ initialTeamState with
            loading := false, showCreateForm := true, createForm := ⟨"Alpha", "We scrim", 5⟩,
            error := "Failed to create team" },
          ⟨"u1", "public", none, false⟩,
          [.postCreateTeam ⟨"Alpha", "We scrim", 5⟩, .getProfile]) ∧
      (handleCreateTeam ⟨"u1", "public", none, false⟩
        { initialTeamState with
          loading := false, showCreateForm := true, createForm := ⟨"Alpha", "We scrim", 5⟩ }
        (.ok ()) (.ok ⟨"u1", "public", some "teamA", false⟩) (.error none)).1.error
      = "Failed to create team" := by
  decide

/-! ## Scrim board: the format filter -/

/-- C25, the code at the failing input: with the format filter 2games, whose
option is labelled "2+ Games", a scrim of three games is dropped and only the
scrim of exactly two games is kept. -/
theorem two_plus_games_filter_drops_three_games :
    applyFilters 0 0 ⟨"all", "all", "2games", "all", "all"⟩
        [⟨"s1", "teamA", "public", "open", 3, 13, some 1000⟩,
          ⟨"s2", "teamB", "public", "open", 2, 13, some 2000⟩,
          ⟨"s3", "teamC", "public", "open", 5, 13, some 3000⟩]
      = [⟨"s2", "teamB", "public", "open", 2, 13, some 2000⟩] ∧
      (2 : Int) ≤ (⟨"s1", "teamA", "public", "open", 3, 13, some 1000⟩ : Scrim).num_games ∧
      3 ∈ numGamesOptions := by
  decide

/-! ## Scrim creation: the map selection -/

/-- Removing a map that is the last of a duplicate-free list and appending it
again gives the list back, and only then. -/
theorem filter_ne_append_eq_self_iff (s : List String) (m : String) (hnd : s.Nodup)
    (hm : m ∈ s) : s.filter (fun x => x != m) ++ [m] = s ↔ s.getLast? = some m := by
  constructor
  · intro h
    rw [← h]
    simp
  · intro h
    obtain ⟨init, rfl⟩ : ∃ init, s = init ++ [m] := by
      rcases List.eq_nil_or_concat s with h0 | ⟨init, a, rfl⟩
      · subst h0
        simp at hm
      · have ha : a = m := by simpa using h
        exact ⟨init, by rw [ha]; simp⟩
    have hnot : m ∉ init := by
      intro hmem
      have := List.disjoint_of_nodup_append hnd hmem
      simp at this
    have hfilter : init.filter (fun x => x != m) = init := by
      rw [List.filter_eq_self]
      intro a ha
      simp only [bne_iff_ne, ne_eq]
      intro e
      exact hnot (e ▸ ha)
    rw [List.filter_append, hfilter]
    simp

/-- C27: for a duplicate-free selection and a map m, the selection after
handleMapToggle(m) is duplicate-free, contains m exactly when the original
did not, contains every other map exactly when the original did, and the
other fields of the form are unchanged. -/
theorem handleMapToggle_flips_one (prev : FormData) (m : String) (hnd : prev.maps.Nodup) :
    (handleMapToggle m prev).maps.Nodup ∧
      (m ∈ (handleMapToggle m prev).maps ↔ m ∉ prev.maps) ∧
      (∀ x, x ≠ m → (x ∈ (handleMapToggle m prev).maps ↔ x ∈ prev.maps)) ∧
      (handleMapToggle m prev).title = prev.title ∧
      (handleMapToggle m prev).description = prev.description ∧
      (handleMapToggle m prev).max_rounds = prev.max_rounds ∧
      (handleMapToggle m prev).num_games = prev.num_games ∧
      (handleMapToggle m prev).scheduled_time = prev.scheduled_time ∧
      (handleMapToggle m prev).max_participants = prev.max_participants := by
  refine ⟨?_, ?_, ?_, rfl, rfl, rfl, rfl, rfl, rfl⟩
  · by_cases h : m ∈ prev.maps
    · have e : (handleMapToggle m prev).maps = prev.maps.filter (fun x => x != m) := by
        simp [handleMapToggle, h]
      rw [e]
      exact hnd.filter _
    · have e : (handleMapToggle m prev).maps = prev.maps ++ [m] := by
        simp [handleMapToggle, h]
      rw [e, List.nodup_append]
      refine ⟨hnd, List.nodup_singleton _, ?_⟩
      intro a ha hb
      rw [List.mem_singleton] at hb
      exact h (hb ▸ ha)
  · by_cases h : m ∈ prev.maps <;> simp [handleMapToggle, h]
  · intro x hx
    by_cases h : m ∈ prev.maps <;> simp [handleMapToggle, h, hx]

/-- Witness of C27: toggling Bind into a selection that holds Ascent. -/
theorem handleMapToggle_flips_one_witness :
    (handleMapToggle "Bind" { initialFormData with maps := ["Ascent"] }).maps.Nodup ∧
      ("Bind" ∈ (handleMapToggle "Bind" { initialFormData with maps := ["Ascent"] }).maps ↔
        "Bind" ∉ ["Ascent"]) :=
  ⟨(handleMapToggle_flips_one { initialFormData with maps := ["Ascent"] } "Bind"
      (by decide)).1,
    (handleMapToggle_flips_one { initialFormData with maps := ["Ascent"] } "Bind"
      (by decide)).2.1⟩

/-- C28: for a duplicate-free selection s and a map m, toggling m twice gives
a list with the same maps as s; the list is s itself exactly when m was not
in s or was the last element of s, and otherwise it is s without m followed
by m. -/
theorem handleMapToggle_twice (prev : FormData) (m : String) (hnd : prev.maps.Nodup) :
    (∀ x, x ∈ (handleMapToggle m (handleMapToggle m prev)).maps ↔ x ∈ prev.maps) ∧
      ((handleMapToggle m (handleMapToggle m prev)).maps = prev.maps ↔
        m ∉ prev.maps ∨ prev.maps.getLast? = some m) ∧
      (m ∈ prev.maps →
        (handleMapToggle m (handleMapToggle m prev)).maps
          = prev.maps.filter (fun x => x != m) ++ [m]) := by
  by_cases h : m ∈ prev.maps
  · have htwice : (handleMapToggle m (handleMapToggle m prev)).maps
        = prev.maps.filter (fun x => x != m) ++ [m] := by
      simp [handleMapToggle, h]
    refine ⟨?_, ?_, fun _ => htwice⟩
    · intro x
      rw [htwice]
      by_cases hx : x = m
      · subst hx
        simp [h]
      · simp [hx]
    · rw [htwice, filter_ne_append_eq_self_iff prev.maps m hnd h]
      simp [h]
  · have hfilter : prev.maps.filter (fun x => x != m) = prev.maps := by
      rw [List.filter_eq_self]
      intro a ha
      simp only [bne_iff_ne, ne_eq]
      intro e
      exact h (e ▸ ha)
    have htwice : (handleMapToggle m (handleMapToggle m prev)).maps = prev.maps := by
      simp [handleMapToggle, h, List.filter_append, hfilter]
    exact ⟨fun x => by rw [htwice], by simp [htwice, h], fun hm => absurd hm h⟩

/-- Witness of C28: toggling Ascent twice in the selection Ascent, Bind moves
it to the end. -/
theorem handleMapToggle_twice_witness :
    (handleMapToggle "Ascent"
        (handleMapToggle "Ascent" { initialFormData with maps := ["Ascent", "Bind"] })).maps
      = ["Bind", "Ascent"] :=
  ((handleMapToggle_twice { initialFormData with maps := ["Ascent", "Bind"] } "Ascent"
    (by decide)).2.2 (by decide)).trans (by decide)

/-! ## Scrim board: applying the filters twice -/

/-- A scrim scheduled no later than another may stay in front of it. -/
theorem notAfter_of_scheduledLe {a b : Scrim} (h : scheduledLe a b) : notAfter a b := by
  unfold scheduledLe at h
  unfold notAfter sortCompare compareScheduled
  cases hx : a.scheduled_time <;> cases hy : b.scheduled_time <;> simp_all

/-- Sorting a list that is ascending by scheduled time changes nothing. -/
theorem sortByScheduled_eq_self (l : List Scrim) (h : l.Pairwise scheduledLe) :
    sortByScheduled l = l :=
  List.Sorted.insertionSort_eq (h.imp (fun hab => notAfter_of_scheduledLe hab))

/-- C29: for scrims with valid scheduled times, every filter setting and
every current date, applying the filters to their own output returns the same
list in the same order. -/
theorem applyFilters_idempotent (tz now : Int) (filters : Filters) (scrims : List Scrim)
    (hv : validTimes scrims) :
    applyFilters tz now filters (applyFilters tz now filters scrims)
      = applyFilters tz now filters scrims := by
  rw [applyFilters_eq_sort_filter tz now filters scrims, applyFilters_eq_sort_filter]
  have hkeep : (sortByScheduled (scrims.filter (passesFilters tz now filters))).filter
        (passesFilters tz now filters)
      = sortByScheduled (scrims.filter (passesFilters tz now filters)) := by
    rw [List.filter_eq_self]
    intro s hs
    exact (List.mem_filter.mp ((sortByScheduled_perm _).mem_iff.mp hs)).2
  rw [hkeep]
  exact sortByScheduled_eq_self _ (sortByScheduled_sorted _ (validTimes_filter _ hv))

/-- Witness of C29: three scrims under the mr13 filter. -/
theorem applyFilters_idempotent_witness :
    applyFilters 0 0 ⟨"all", "all", "mr13", "all", "all"⟩
        (applyFilters 0 0 ⟨"all", "all", "mr13", "all", "all"⟩
          [⟨"s1", "teamA", "public", "open", 1, 13, some 3000⟩,
            ⟨"s2", "teamB", "public", "open", 1, 24, some 2000⟩,
            ⟨"s3", "teamC", "public", "open", 2, 13, some 1000⟩])
      = [⟨"s3", "teamC", "public", "open", 2, 13, some 1000⟩,
          ⟨"s1", "teamA", "public", "open", 1, 13, some 3000⟩] :=
  (applyFilters_idempotent 0 0 ⟨"all", "all", "mr13", "all", "all"⟩ _
    (by simp [validTimes])).trans (by decide)

/-! ## App: the route guards -/

/-- C30: with no logged-in user each protected route resolves to a redirect
and no route renders Dashboard, TeamManagement, ScrimBoard, CreateScrim,
Profile or AdminDashboard; for a logged-in user /login and /register resolve
to a redirect to /dashboard. -/
theorem route_guards :
    (∀ path ∈ ["/dashboard", "/team", "/scrims", "/create-scrim", "/profile", "/admin", "/"],
      ∃ target, routeElement none path = .navigate target) ∧
      (∀ path u,
        routeElement none path ≠ .dashboard u ∧ routeElement none path ≠ .teamManagement u ∧
        routeElement none path ≠ .scrimBoard u ∧ routeElement none path ≠ .createScrim u ∧
        routeElement none path ≠ .profile u ∧ routeElement none path ≠ .adminDashboard u) ∧
      ∀ user : User,
        routeElement (some user) "/login" = .navigate "/dashboard" ∧
        routeElement (some user) "/register" = .navigate "/dashboard" := by
  refine ⟨?_, ?_, ?_⟩
  · intro path hpath
    simp only [List.mem_cons, List.mem_singleton, List.not_mem_nil, or_false] at hpath
    rcases hpath with h | h | h | h | h | h | h <;> subst h
    · exact ⟨"/login", by decide⟩
    · exact ⟨"/login", by decide⟩
    · exact ⟨"/login", by decide⟩
    · exact ⟨"/login", by decide⟩
    · exact ⟨"/login", by decide⟩
    · exact ⟨"/dashboard", by decide⟩
    · exact ⟨"/login", by decide⟩
  · intro path u
    unfold routeElement
    repeat' split
    all_goals simp_all
  · intro user
    exact ⟨rfl, rfl⟩

/-! ## The engine of the specification: atomic transitions -/

/-- A tier is not strictly above itself. -/
theorem ne_of_strictlyAbove {current requested : String}
    (h : strictlyAbove current requested = true) : current ≠ requested := by
  intro e
  subst e
  unfold strictlyAbove at h
  cases hr : tierRank current <;> simp [hr] at h

/-- C23: on the model of resolve made from the specification, a failed call
leaves the scrim and its applications unchanged; a call by the owning team on
an open scrim whose applications are all pending and have distinct ids, for
the id of one of them, succeeds, the scrim is then filled, exactly one
application is accepted, it is the one named, and every other is rejected. -/
theorem resolve_atomic (scrim : EngineScrim) (callerTeam acceptedId : String) :
    ((resolve scrim callerTeam acceptedId).2 ≠ none →
      (resolve scrim callerTeam acceptedId).1 = scrim) ∧
    (callerTeam = scrim.team_id → scrim.status = "open" →
      (∀ a ∈ scrim.applications, a.status = .pending) →
      (scrim.applications.map EngineApplication.application_id).Nodup →
      acceptedId ∈ scrim.applications.map EngineApplication.application_id →
      (resolve scrim callerTeam acceptedId).2 = none ∧
      (resolve scrim callerTeam acceptedId).1.status = "filled" ∧
      (resolve scrim callerTeam acceptedId).1.applications.countP
        (fun a => a.status == .accepted) = 1 ∧
      (∀ a ∈ (resolve scrim callerTeam acceptedId).1.applications,
        (a.application_id = acceptedId ∧ a.status = .accepted) ∨
        (a.application_id ≠ acceptedId ∧ a.status = .rejected)) ∧
      (resolve scrim callerTeam acceptedId).1.applications.map
          EngineApplication.application_id
        = scrim.applications.map EngineApplication.application_id) := by
  constructor
  · intro h
    unfold resolve at h ⊢
    split
    · rfl
    · split
      · rfl
      · split
        · rfl
        · rename_i h1 h2 h3
          simp [h1, h2, h3] at h
  · intro hcaller hopen hpending hnd hmem
    have hany : scrim.applications.any
        (fun a => a.application_id == acceptedId && a.status == .pending) = true := by
      obtain ⟨a, ha, hid⟩ := List.mem_map.mp hmem
      rw [List.any_eq_true]
      exact ⟨a, ha, by simp [hid, hpending a ha]⟩
    have hres : resolve scrim callerTeam acceptedId
        = ({ scrim with
              status := "filled",
              applications := scrim.applications.map (fun a =>
                if a.application_id = acceptedId then { a with status := .accepted }
                else if a.status = .pending then { a with status := .rejected }
                else a) }, none) := by
      simp [resolve, hcaller, hopen, hany]
    rw [hres]
    refine ⟨rfl, rfl, ?_, ?_, ?_⟩
    · simp only [List.countP_map]
      have hcongr : ∀ a ∈ scrim.applications,
          ((fun a : EngineApplication => a.status == .accepted) ∘
            (fun a : EngineApplication =>
              if a.application_id = acceptedId then { a with status := .accepted }
              else if a.status = .pending then { a with status := .rejected }
              else a)) a = true ↔
          ((fun x => x == acceptedId) ∘ EngineApplication.application_id) a = true := by
        intro a ha
        by_cases hid : a.application_id = acceptedId <;> simp [hid, hpending a ha]
      rw [List.countP_congr hcongr, ← List.countP_map]
      exact List.count_eq_one_of_mem hnd hmem
    · intro a ha
      simp only [List.mem_map] at ha
      obtain ⟨b, hb, rfl⟩ := ha
      by_cases hid : b.application_id = acceptedId <;> simp [hid, hpending b hb]
    · simp only [List.map_map]
      apply List.map_congr_left
      intro a _
      by_cases hid : a.application_id = acceptedId <;>
        by_cases hp : a.status = .pending <;> simp [hid, hp]

/-- Witness of C23: the owning team accepts the second of two applications. -/
theorem resolve_atomic_witness :
    (resolve ⟨"s1", "teamA", "open", [⟨"a1", "teamB", .pending⟩, ⟨"a2", "teamC", .pending⟩]⟩
        "teamA" "a2").1
      = ⟨"s1", "teamA", "filled", [⟨"a1", "teamB", .rejected⟩, ⟨"a2", "teamC", .accepted⟩]⟩ ∧
      (resolve ⟨"s1", "teamA", "open", [⟨"a1", "teamB", .pending⟩, ⟨"a2", "teamC", .pending⟩]⟩
        "teamA" "a2").2 = none :=
  ⟨by decide,
    ((resolve_atomic
      ⟨"s1", "teamA", "open", [⟨"a1", "teamB", .pending⟩, ⟨"a2", "teamC", .pending⟩]⟩
      "teamA" "a2").2 rfl rfl (by decide) (by decide) (by decide)).1⟩

/-- C24: on the model of approve made from the specification, for a pending
request a successful approve leaves the request approved and the tier of the
account equal to the requested tier, a failed approve leaves both unchanged,
so the request is approved exactly when the tier has changed; an admin
approving a tier strictly above the current one succeeds. The caller in the
front end, handleApproveRequest, asks for the approval in one request. -/
theorem approve_atomic (account : Account) (request : UpgradeRequest) (admin : Account)
    (hpending : request.status = .pending) :
    ((approve account request admin).2 = none →
      (approve account request admin).1.2.status = .approved ∧
      (approve account request admin).1.1.tier = request.requested_tier) ∧
    ((approve account request admin).2 ≠ none →
      (approve account request admin).1 = (account, request)) ∧
    ((approve account request admin).1.2.status = .approved ↔
      (approve account request admin).1.1.tier ≠ account.tier) ∧
    (admin.is_admin = true → strictlyAbove account.tier request.requested_tier = true →
      (approve account request admin).2 = none) ∧
    ∀ requestId answer refetch st,
      (handleApproveRequest requestId answer refetch st).2
          = [.postApprove requestId, .getTierRequests] ∨
        (handleApproveRequest requestId answer refetch st).2 = [.postApprove requestId] := by
  have hcases : (admin.is_admin = true ∧ strictlyAbove account.tier request.requested_tier = true ∧
        approve account request admin
          = (({ account with tier := request.requested_tier },
              { request with status := .approved }), none)) ∨
      (∃ e, approve account request admin = ((account, request), some e)) := by
    unfold approve setTier
    cases ha : admin.is_admin <;> cases hs : strictlyAbove account.tier request.requested_tier <;>
      simp [hpending]
  refine ⟨?_, ?_, ?_, ?_, ?_⟩
  · intro h
    rcases hcases with ⟨_, _, e⟩ | ⟨err, e⟩
    · rw [e]
      exact ⟨rfl, rfl⟩
    · rw [e] at h
      simp at h
  · intro h
    rcases hcases with ⟨_, _, e⟩ | ⟨err, e⟩
    · rw [e] at h
      simp at h
    · rw [e]
  · rcases hcases with ⟨_, hs, e⟩ | ⟨err, e⟩
    · rw [e]
      have hne := ne_of_strictlyAbove hs
      simp only [true_iff]
      exact fun h => hne h.symm
    · rw [e]
      simp [hpending]
  · intro hadmin hs
    rcases hcases with ⟨_, _, e⟩ | ⟨err, e⟩
    · rw [e]
    · exfalso
      unfold approve setTier at e
      simp [hadmin, hs, hpending] at e
  · intro requestId answer refetch st
    cases answer <;> simp [handleApproveRequest]

/-- Witness of C24: an admin approves the request of a public account for
tier_3. -/
theorem approve_atomic_witness :
    approve ⟨"c", "public", false⟩ ⟨"r1", "c", "tier_3", .pending⟩ ⟨"adm", "tier_1", true⟩
      = ((⟨"c", "tier_3", false⟩, ⟨"r1", "c", "tier_3", .approved⟩), none) ∧
      (approve ⟨"c", "public", false⟩ ⟨"r1", "c", "tier_3", .pending⟩
        ⟨"adm", "tier_1", true⟩).1.2.status = .approved :=
  ⟨by decide,
    ((approve_atomic ⟨"c", "public", false⟩ ⟨"r1", "c", "tier_3", .pending⟩
      ⟨"adm", "tier_1", true⟩ rfl).1 (by decide)).1⟩

end ScrimHandler
